import Mathlib

/-!
# GetHelp backend: voice / chat / task pipeline

A shallow embedding of the backend services and routes

* `services/aiService.js`    (`AIService.processConversation`)
* `services/voiceService.js` (`VoiceService.speechToText`, `VoiceService.textToSpeech`)
* `services/taskService.js`  (`TaskService.executeTask` and the six handlers)
* `api/voice.js`             (upload filter, `POST /process`, `POST /chat`)
* `api/tasks.js`             (`POST /execute`, `GET /list`)

Asynchronous functions are embedded as state-passing functions over a `World`
(temp files on disk, the task table, a log of the effects performed); a thrown
error / rejected promise is `Except.error` carrying `error.message`.  External
providers, the clock and the random source are fields of `Env`.
-/

namespace GetHelp

/-! ## JavaScript values -/

/-- JavaScript values that reach the services: `undefined` plus JSON data.  Objects are
association lists of their own data properties (the first binding of a key wins). -/
inductive JVal where
  | undefined
  | null
  | bool (b : Bool)
  | num (q : ℚ)
  | str (s : String)
  | arr (xs : List JVal)
  | obj (kvs : List (String × JVal))

namespace JVal

/-- JavaScript `ToBoolean`. -/
def truthy : JVal → Bool
  | undefined => false
  | null => false
  | bool b => b
  | num q => decide (q ≠ 0)
  | str s => decide (s ≠ "")
  | arr _ => true
  | obj _ => true

/-- The expression `a || b`. -/
def orElse (a b : JVal) : JVal := if a.truthy then a else b

/-- Own data property lookup in an association list. -/
def lookup (k : String) : List (String × JVal) → Option JVal
  | [] => none
  | (k', v) :: rest => if k' = k then some v else lookup k rest

/-- Property read `v.k` for a data key `k` (a key that no built-in prototype defines, as are
all keys the handlers read: `date`, `time`, `type`, `orderNumber`, `amount`, `issue`,
`product`).  Reading a property of `undefined` or `null` throws a `TypeError`; on any other
value the read yields the own property or `undefined`. -/
def getField (v : JVal) (k : String) : Except String JVal :=
  match v with
  | undefined => .error ("Cannot read properties of undefined (reading '" ++ k ++ "')")
  | null => .error ("Cannot read properties of null (reading '" ++ k ++ "')")
  | obj kvs => .ok ((lookup k kvs).getD undefined)
  | _ => .ok undefined

/-- The own keys of an object, in order. -/
def keys : JVal → List String
  | obj kvs => kvs.map Prod.fst
  | _ => []

/-- Spread `...v` inside an array literal: the elements of an array, the characters of a
string; any other value is not iterable and the spread throws a `TypeError`. -/
def spread : JVal → Except String (List JVal)
  | arr xs => .ok xs
  | str s => .ok (s.data.map fun c => str (String.mk [c]))
  | _ => .error "conversationHistory is not iterable"

end JVal

/-! ## Environment, effects and state -/

/-- One element of `completion.choices`: only `message.content` is read. -/
structure Choice where
  content : JVal

/-- The object a chat completion call resolves to. -/
structure Completion where
  choices : List Choice

/-- The argument of `openai.chat.completions.create`. -/
structure ChatParams where
  model : String
  messages : List JVal
  max_tokens : Nat
  temperature : ℚ

/-- An HTTP response written with `res.status(..).json(..)`. -/
structure Response where
  status : Nat
  body : JVal

/-- Everything outside the repository: the three OpenAI endpoints, `JSON.parse`, the clock,
the random source, the transport that writes a response, and the members of
`Object.prototype` whose result depends on argument coercion.  A provider call either
resolves (`ok`) or rejects with an error whose `message` is the string under `error`. -/
structure Env where
  /-- Result of `openai.audio.transcriptions.create` on the file at a path: `transcription.text`. -/
  transcribe : String → Except String String
  /-- Result of `openai.chat.completions.create`. -/
  complete : ChatParams → Except String Completion
  /-- Result of `openai.audio.speech.create` on an input text. -/
  speech : JVal → Except String JVal
  /-- Result of `JSON.parse`. -/
  jsonParse : String → Except String JVal
  /-- Value of `Date.now()`. -/
  dateNow : Nat
  /-- Value of `new Date().toISOString()`. -/
  isoNow : String
  /-- Value of `Math.random().toString(36).substr(2, 9)`. -/
  randomSuffix : String
  /-- Whether `res.json` on a response succeeds or throws. -/
  send : Response → Except String Unit
  /-- Result of calling an `Object.prototype` method on the task table with one argument. -/
  objectProto : String → JVal → Except String JVal

/-- The six methods bound in the `TaskService` constructor. -/
inductive Handler where
  | getAccountInfo
  | scheduleAppointment
  | trackOrder
  | processBillPayment
  | createSupportTicket
  | getProductInfo
  deriving DecidableEq, Repr

/-- Effects that the routes and services perform, in the order performed. -/
inductive Event where
  | transcribe (path : String)
  | complete (params : ChatParams)
  | synthesize (text : JVal)
  | unlink (path : String)
  | handler (h : Handler) (params : JVal)
  | consoleError (label : String) (message : String)
  | respond (r : Response)

/-- Process state: files present on disk, the `tasks` table of the `TaskService`
instance, and the log of effects. -/
structure World where
  files : List String
  tasks : List (String × Handler)
  log : List Event

/-- Append an event to the log. -/
def World.record (w : World) (e : Event) : World :=
  { w with log := w.log ++ [e] }

/-- A computation that may throw and that changes the world either way. -/
abbrev Eff (α : Type) := World → Except String α × World

/-! ## services/aiService.js -/

/-- The template literal assigned to `this.systemPrompt`. -/
def systemPrompt : String :=
  "You are a helpful customer service AI assistant for GetHelp. \n" ++
  "    You can help customers with:\n" ++
  "    1. Account information retrieval\n" ++
  "    2. Appointment scheduling\n" ++
  "    3. Order status and tracking\n" ++
  "    4. Bill payment processing\n" ++
  "    5. Technical support ticketing\n" ++
  "    6. Product information and recommendations\n" ++
  "    \n" ++
  "    Always be polite, helpful, and ask clarifying questions when needed."

/-- The turn `{ role: 'system', content: this.systemPrompt }`. -/
def systemTurn : JVal :=
  .obj [("role", .str "system"), ("content", .str systemPrompt)]

/-- The turn `{ role: 'user', content: userMessage }`. -/
def userTurn (userMessage : JVal) : JVal :=
  .obj [("role", .str "user"), ("content", userMessage)]

/-- The array literal `[system, ...conversationHistory, user]`; the default parameter
`conversationHistory = []` replaces `undefined`. -/
def buildMessages (userMessage conversationHistory : JVal) : Except String (List JVal) :=
  let history := match conversationHistory with
    | .undefined => JVal.arr []
    | h => h
  match history.spread with
  | .error m => .error m
  | .ok turns => .ok (systemTurn :: turns ++ [userTurn userMessage])

/-- The expression `completion.choices[0].message.content`. -/
def firstChoiceContent (completion : Completion) : Except String JVal :=
  match completion.choices with
  | [] => .error "Cannot read properties of undefined (reading 'message')"
  | c :: _ => .ok c.content

/-- The argument object of the completion call for a given `messages` array. -/
def chatParams (messages : List JVal) : ChatParams :=
  { model := "gpt-4", messages := messages, max_tokens := 500, temperature := 7 / 10 }

/-- Method `AIService.processConversation`: the whole body is one `try`, every failure is rethrown
as `AI processing failed: <message>`. -/
def processConversation (env : Env) (userMessage conversationHistory : JVal) : Eff JVal :=
  fun w =>
    match buildMessages userMessage conversationHistory with
    | .error m => (.error ("AI processing failed: " ++ m), w)
    | .ok messages =>
      let w1 := w.record (.complete (chatParams messages))
      match env.complete (chatParams messages) with
      | .error m => (.error ("AI processing failed: " ++ m), w1)
      | .ok completion =>
        match firstChoiceContent completion with
        | .error m => (.error ("AI processing failed: " ++ m), w1)
        | .ok content => (.ok content, w1)

/-- The `messages` arguments of the completion calls recorded in a log. -/
def completionMessages : List Event → List (List JVal)
  | [] => []
  | .complete p :: rest => p.messages :: completionMessages rest
  | _ :: rest => completionMessages rest

/-! ## services/voiceService.js -/

/-- Method `VoiceService.speechToText`: one transcription call on the file; a provider failure is
rethrown as `Speech-to-text failed: <message>`. -/
def speechToText (env : Env) (audioFile : String) : Eff String :=
  fun w =>
    let w1 := w.record (.transcribe audioFile)
    match env.transcribe audioFile with
    | .error m => (.error ("Speech-to-text failed: " ++ m), w1)
    | .ok text => (.ok text, w1)

/-- Method `VoiceService.textToSpeech`: one synthesis call on the text; a provider failure is
rethrown as `Text-to-speech failed: <message>`. -/
def textToSpeech (env : Env) (text : JVal) : Eff JVal :=
  fun w =>
    let w1 := w.record (.synthesize text)
    match env.speech text with
    | .error m => (.error ("Text-to-speech failed: " ++ m), w1)
    | .ok mp3 => (.ok mp3, w1)

/-! ## services/taskService.js -/

/-- The expression `params.k || 'dflt'`. -/
def fieldOr (params : JVal) (k dflt : String) : Except String JVal :=
  match params.getField k with
  | .error m => .error m
  | .ok v => .ok (v.orElse (.str dflt))

/-- Method `TaskService.getAccountInfo`: a fixed record, the parameters are not read. -/
def getAccountInfo (_params : JVal) : Except String JVal :=
  .ok (.obj [("success", .bool true),
    ("data", .obj [("accountNumber", .str "****1234"),
                   ("balance", .str "$1,250.00"),
                   ("lastPayment", .str "2024-01-15"),
                   ("nextDueDate", .str "2024-02-15")])])

/-- Method `TaskService.scheduleAppointment`. -/
def scheduleAppointment (env : Env) (params : JVal) : Except String JVal :=
  match fieldOr params "date" "2024-02-20" with
  | .error m => .error m
  | .ok date =>
    match fieldOr params "time" "10:00 AM" with
    | .error m => .error m
    | .ok time =>
      match fieldOr params "type" "General Consultation" with
      | .error m => .error m
      | .ok type =>
        .ok (.obj [("success", .bool true),
          ("data", .obj [("appointmentId", .str ("APT-" ++ toString env.dateNow)),
                         ("date", date), ("time", time), ("type", type)])])

/-- Method `TaskService.trackOrder`. -/
def trackOrder (params : JVal) : Except String JVal :=
  match fieldOr params "orderNumber" "ORD-12345" with
  | .error m => .error m
  | .ok orderNumber =>
    .ok (.obj [("success", .bool true),
      ("data", .obj [("orderNumber", orderNumber),
                     ("status", .str "In Transit"),
                     ("estimatedDelivery", .str "2024-01-25"),
                     ("trackingNumber", .str "TRK789456123")])])

/-- Method `TaskService.processBillPayment`. -/
def processBillPayment (env : Env) (params : JVal) : Except String JVal :=
  match fieldOr params "amount" "$125.00" with
  | .error m => .error m
  | .ok amount =>
    .ok (.obj [("success", .bool true),
      ("data", .obj [("paymentId", .str ("PAY-" ++ toString env.dateNow)),
                     ("amount", amount),
                     ("method", .str "Credit Card ****1234"),
                     ("confirmationNumber", .str ("CONF-" ++ env.randomSuffix))])])

/-- Method `TaskService.createSupportTicket`. -/
def createSupportTicket (env : Env) (params : JVal) : Except String JVal :=
  match fieldOr params "issue" "General Support Request" with
  | .error m => .error m
  | .ok issue =>
    .ok (.obj [("success", .bool true),
      ("data", .obj [("ticketId", .str ("TKT-" ++ toString env.dateNow)),
                     ("issue", issue),
                     ("priority", .str "Medium"),
                     ("estimatedResolution", .str "24-48 hours")])])

/-- Method `TaskService.getProductInfo`. -/
def getProductInfo (params : JVal) : Except String JVal :=
  match fieldOr params "product" "Premium Service Plan" with
  | .error m => .error m
  | .ok productName =>
    .ok (.obj [("success", .bool true),
      ("data", .obj [("productName", productName),
                     ("price", .str "$29.99/month"),
                     ("features", .arr [.str "24/7 Support", .str "Priority Service",
                                        .str "Advanced Features"]),
                     ("availability", .str "Available")])])

/-- The body of each bound method. -/
def runHandler (env : Env) : Handler → JVal → Except String JVal
  | .getAccountInfo => getAccountInfo
  | .scheduleAppointment => scheduleAppointment env
  | .trackOrder => trackOrder
  | .processBillPayment => processBillPayment env
  | .createSupportTicket => createSupportTicket env
  | .getProductInfo => getProductInfo

/-- The object literal assigned to `this.tasks` in the `TaskService` constructor. -/
def initialTasks : List (String × Handler) :=
  [("account_info", .getAccountInfo),
   ("schedule_appointment", .scheduleAppointment),
   ("order_tracking", .trackOrder),
   ("bill_payment", .processBillPayment),
   ("technical_support", .createSupportTicket),
   ("product_info", .getProductInfo)]

/-- The six registered task ids: the own keys of `this.tasks`. -/
def registeredIds : List String := initialTasks.map Prod.fst

/-- Property names that every object literal inherits from `Object.prototype`. -/
def objectPrototypeKeys : List String :=
  ["constructor", "__defineGetter__", "__defineSetter__", "hasOwnProperty",
   "__lookupGetter__", "__lookupSetter__", "isPrototypeOf", "propertyIsEnumerable",
   "toString", "valueOf", "__proto__", "toLocaleString"]

/-- What the property read `this.tasks[taskType]` finds. -/
inductive Member where
  | own (h : Handler)
  | inherited (name : String)

/-- Own property lookup in the task table. -/
def ownTask (key : String) : List (String × Handler) → Option Handler
  | [] => none
  | (k, h) :: rest => if k = key then some h else ownTask key rest

/-- The property read `this.tasks[taskType]`: an own key yields the bound method, a key of
`Object.prototype` yields the inherited member, any other key yields `undefined`
(`none`).  Every member found is a function or an object, hence truthy. -/
def tasksGet (tasks : List (String × Handler)) (taskType : String) : Option Member :=
  match ownTask taskType tasks with
  | some h => some (.own h)
  | none => if taskType ∈ objectPrototypeKeys then some (.inherited taskType) else none

/-- The call `this.tasks[name](parameters)` for an inherited member, with the task table as
receiver.  `__proto__` is an object, not a function; `toString` and `toLocaleString` ignore
the argument; `__defineGetter__` and `__defineSetter__` reject the missing second
argument; no value built from JSON has the task table in its prototype chain.  The
remaining members coerce the argument and are left to the environment. -/
def callInherited (env : Env) (name : String) (parameters : JVal) : Except String JVal :=
  if name = "__proto__" then .error "this.tasks[taskType] is not a function"
  else if name = "toString" ∨ name = "toLocaleString" then .ok (.str "[object Object]")
  else if name = "__defineGetter__" then
    .error "Object.prototype.__defineGetter__: Expecting function"
  else if name = "__defineSetter__" then
    .error "Object.prototype.__defineSetter__: Expecting function"
  else if name = "isPrototypeOf" then .ok (.bool false)
  else env.objectProto name parameters

/-- Method `TaskService.executeTask`: call the member found under `taskType` in the task
table, throw `Unknown task type` when the lookup is falsy. -/
def executeTask (env : Env) (taskType : String) (parameters : JVal) : Eff JVal :=
  fun w =>
    match tasksGet w.tasks taskType with
    | some (.own h) => (runHandler env h parameters, w.record (.handler h parameters))
    | some (.inherited name) => (callInherited env name parameters, w)
    | none => (.error ("Unknown task type: " ++ taskType), w)

/-! ## Writing responses -/

/-- The call `res.status(code).json(body)` (`res.json(body)` is status 200): the attempt is
logged, the transport decides whether it throws. -/
def send (env : Env) (r : Response) : Eff Response :=
  fun w =>
    let w1 := w.record (.respond r)
    match env.send r with
    | .error m => (.error m, w1)
    | .ok _ => (.ok r, w1)

/-! ## api/tasks.js -/

/-- Body of `POST /execute`: `{ taskType, parameters }`, each possibly absent. -/
structure ExecuteBody where
  taskType : Option String
  parameters : JVal

/-- The `try` block of `POST /execute`. -/
def executeTry (env : Env) (body : ExecuteBody) : Eff Response :=
  fun w =>
    match body.taskType with
    | none => send env ⟨400, .obj [("error", .str "Task type is required")]⟩ w
    | some taskType =>
      if taskType = "" then
        send env ⟨400, .obj [("error", .str "Task type is required")]⟩ w
      else
        match executeTask env taskType (body.parameters.orElse (.obj [])) w with
        | (.error m, w1) => (.error m, w1)
        | (.ok result, w1) =>
          send env ⟨200, .obj [("taskType", .str taskType), ("result", result),
                               ("timestamp", .str env.isoNow)]⟩ w1

/-- The handler of `POST /execute`: the `try` block and its `catch`. -/
def executeRoute (env : Env) (body : ExecuteBody) : Eff Response :=
  fun w =>
    match executeTry env body w with
    | (.ok r, w1) => (.ok r, w1)
    | (.error m, w1) =>
      send env ⟨500, .obj [("error", .str "Task execution failed"), ("message", .str m)]⟩
        (w1.record (.consoleError "Task execution error:" m))

/-- One element of `availableTasks`. -/
def taskDescriptor (id name description endpoint : String) : JVal :=
  .obj [("id", .str id), ("name", .str name), ("description", .str description),
        ("endpoint", .str endpoint)]

/-- The array literal `availableTasks` of `GET /list`. -/
def availableTasks : List JVal :=
  [taskDescriptor "account_info" "Account Information"
     "Retrieve account balance and transaction history" "/api/tasks/account",
   taskDescriptor "schedule_appointment" "Schedule Appointment"
     "Schedule, reschedule, or cancel appointments" "/api/tasks/appointment",
   taskDescriptor "order_tracking" "Order Tracking"
     "Track order status and shipping information" "/api/tasks/order",
   taskDescriptor "bill_payment" "Bill Payment"
     "Process payments and set up auto-pay" "/api/tasks/payment",
   taskDescriptor "technical_support" "Technical Support"
     "Create support tickets and check status" "/api/tasks/support",
   taskDescriptor "product_info" "Product Information"
     "Get product details and recommendations" "/api/tasks/product"]

/-- The handler of `GET /list`. -/
def listRoute (env : Env) : Eff Response :=
  send env ⟨200, .obj [("availableTasks", .arr availableTasks)]⟩

/-- The `id` of a descriptor, when it is a string. -/
def descriptorId (d : JVal) : Option String :=
  match d with
  | .obj kvs =>
    match JVal.lookup "id" kvs with
    | some (.str s) => some s
    | _ => none
  | _ => none

/-! ## api/voice.js: upload filter and storage -/

/-- Loop variables of Node's POSIX `path.extname`. -/
structure ExtState where
  startDot : Int
  startPart : Int
  endPos : Int
  matchedSlash : Bool
  preDotState : Int

/-- The loop of `path.extname`, over the characters of the path from the last index down
to index zero, each paired with its index.  The loop stops at the first separator that
follows a non-separator character. -/
def extnameLoop : List (Nat × Char) → ExtState → ExtState
  | [], st => st
  | (i, c) :: rest, st =>
    if c = '/' then
      if st.matchedSlash then extnameLoop rest st
      else { st with startPart := (i : Int) + 1 }
    else
      let st1 : ExtState :=
        if st.endPos = -1 then { st with matchedSlash := false, endPos := (i : Int) + 1 } else st
      let st2 : ExtState :=
        if c = '.' then
          if st1.startDot = -1 then { st1 with startDot := (i : Int) }
          else if st1.preDotState ≠ 1 then { st1 with preDotState := 1 }
          else st1
        else if st1.startDot ≠ -1 then { st1 with preDotState := -1 }
        else st1
      extnameLoop rest st2

/-- Node's POSIX `path.extname`: the text from the last `.` of the last path segment to
its end, or the empty string when there is no `.` or the segment starts with it. -/
def extname (path : String) : String :=
  let st := extnameLoop path.data.enum.reverse
    { startDot := -1, startPart := 0, endPos := -1, matchedSlash := true, preDotState := 0 }
  if st.startDot = -1 ∨ st.endPos = -1 ∨ st.preDotState = 0 ∨
      (st.preDotState = 1 ∧ st.startDot = st.endPos - 1 ∧ st.startDot = st.startPart + 1) then
    ""
  else
    String.mk ((path.data.drop st.startDot.toNat).take (st.endPos - st.startDot).toNat)

/-- Method `String.prototype.toLowerCase`, on the letters `A`-`Z` (no other character
has a lower-case form that occurs in `wav`, `mp3`, `m4a`, `webm`). -/
def toLowerCase (s : String) : String :=
  String.mk (s.data.map Char.toLower)

/-- Whether the text `p` occurs in `s` as a contiguous run of characters. -/
def occursIn (p : List Char) : List Char → Bool
  | [] => p.isEmpty
  | c :: cs => p.isPrefixOf (c :: cs) || occursIn p cs

/-- The alternatives of the regular expression `/wav|mp3|m4a|webm/`. -/
def allowedTypes : List String := ["wav", "mp3", "m4a", "webm"]

/-- The call `allowedTypes.test(s)`: the expression is not anchored, so it succeeds when
one of its alternatives occurs anywhere in `s`. -/
def allowedTypesTest (s : String) : Bool :=
  allowedTypes.any fun p => occursIn p.data s.data

/-- The `file` object that multer passes to `fileFilter` and to the storage callbacks, and
the number of bytes of the part. -/
structure UploadFile where
  originalname : String
  mimetype : String
  size : Nat

/-- The `fileFilter` callback: `cb(null, true)` is `ok true`, `cb(new Error(..))` is an error. -/
def fileFilter (file : UploadFile) : Except String Bool :=
  let extnameOk := allowedTypesTest (toLowerCase (extname file.originalname))
  let mimetypeOk := allowedTypesTest file.mimetype
  if mimetypeOk && extnameOk then .ok true
  else .error "Only audio files are allowed"

/-- The option `limits.fileSize`. -/
def fileSizeLimit : Nat := 10 * 1024 * 1024

/-- The `filename` callback of the disk storage. -/
def storageFilename (env : Env) (file : UploadFile) : String :=
  "audio-" ++ toString env.dateNow ++ extname file.originalname

/-- The `destination` callback of the disk storage. -/
def uploadDir : String := "temp-audio"

/-- The check that the upload middleware applies to a file part: the `fileFilter` callback,
then the `fileSize` limit.  The middleware refuses a part as soon as its size reaches the
limit (`LIMIT_FILE_SIZE`): a part of exactly `fileSizeLimit` bytes is refused, a part of
one byte less is accepted. -/
def uploadCheck (file : UploadFile) : Except String Unit :=
  match fileFilter file with
  | .error m => .error m
  | .ok _ => if file.size < fileSizeLimit then .ok () else .error "File too large"

/-- The middleware `upload.single('audio')`: no file part leaves `req.file` undefined; a
refused part fails the request and leaves no file; an accepted part is written to
`temp-audio/<filename>` and its path becomes `req.file.path`. -/
def uploadSingle (env : Env) (part : Option UploadFile) : Eff (Option String) :=
  fun w =>
    match part with
    | none => (.ok none, w)
    | some file =>
      match uploadCheck file with
      | .error m => (.error m, w)
      | .ok _ =>
        let path := uploadDir ++ "/" ++ storageFilename env file
        (.ok (some path),
          { w with files := if path ∈ w.files then w.files else path :: w.files })

/-! ## api/voice.js: routes -/

/-- The call `fs.existsSync(path)`. -/
def existsSync (path : String) (w : World) : Bool := decide (path ∈ w.files)

/-- The call `fs.unlinkSync(path)`: removes an existing file, throws on a missing one. -/
def unlinkSync (path : String) : Eff Unit :=
  fun w =>
    let w1 := w.record (.unlink path)
    if path ∈ w.files then (.ok (), { w1 with files := w1.files.filter fun p => p ≠ path })
    else (.error ("ENOENT: no such file or directory, unlink '" ++ path ++ "'"), w1)

/-- What `POST /process` reads from the request: `req.file.path` (when multer stored an
upload) and the text field `req.body.history`. -/
structure VoiceRequest where
  file : Option String
  history : Option String

/-- The expression `req.body.history ? JSON.parse(req.body.history) : []`. -/
def parseHistory (env : Env) : Option String → Except String JVal
  | none => .ok (.arr [])
  | some s => if s = "" then .ok (.arr []) else env.jsonParse s

/-- The body that `POST /process` sends on success. -/
def voiceBody (transcription : String) (aiResponse audioResponse : JVal) : JVal :=
  .obj [("transcription", .str transcription),
        ("response", aiResponse),
        ("audioResponse",
          if audioResponse.truthy then .str "Audio generated successfully" else .null)]

/-- The `try` block of `POST /process`. -/
def processTry (env : Env) (req : VoiceRequest) : Eff Response :=
  fun w =>
    match req.file with
    | none => send env ⟨400, .obj [("error", .str "No audio file provided")]⟩ w
    | some path =>
      match speechToText env path w with
      | (.error m, w1) => (.error m, w1)
      | (.ok transcription, w1) =>
        match parseHistory env req.history with
        | .error m => (.error m, w1)
        | .ok conversationHistory =>
          match processConversation env (.str transcription) conversationHistory w1 with
          | (.error m, w2) => (.error m, w2)
          | (.ok aiResponse, w2) =>
            match textToSpeech env aiResponse w2 with
            | (.error m, w3) => (.error m, w3)
            | (.ok audioResponse, w3) =>
              match unlinkSync path w3 with
              | (.error m, w4) => (.error m, w4)
              | (.ok _, w4) =>
                send env ⟨200, voiceBody transcription aiResponse audioResponse⟩ w4

/-- The cleanup in the `catch` block of `POST /process`:
`if (req.file && fs.existsSync(req.file.path)) fs.unlinkSync(req.file.path)`. -/
def cleanupOnError (req : VoiceRequest) : Eff Unit :=
  fun w =>
    match req.file with
    | none => (.ok (), w)
    | some path => if existsSync path w then unlinkSync path w else (.ok (), w)

/-- The handler of `POST /process`: the `try` block and its `catch`.  An error that
escapes the `catch` block is the `error` result. -/
def processRoute (env : Env) (req : VoiceRequest) : Eff Response :=
  fun w =>
    match processTry env req w with
    | (.ok r, w1) => (.ok r, w1)
    | (.error m, w1) =>
      match cleanupOnError req (w1.record (.consoleError "Voice processing error:" m)) with
      | (.error e, w2) => (.error e, w2)
      | (.ok _, w2) =>
        send env ⟨500, .obj [("error", .str "Voice processing failed"), ("message", .str m)]⟩ w2

/-- The route `POST /process` with its middleware: when the upload is refused the error goes
to the application error handler and the route handler does not run. -/
def voiceEndpoint (env : Env) (part : Option UploadFile) (history : Option String) :
    Eff Response :=
  fun w =>
    match uploadSingle env part w with
    | (.error m, w1) => (.error m, w1)
    | (.ok file, w1) => processRoute env { file := file, history := history } w1

/-- Body of `POST /chat`: `{ message, history }`, an absent field being `undefined`. -/
structure ChatBody where
  message : JVal
  history : JVal

/-- The `try` block of `POST /chat`. -/
def chatTry (env : Env) (body : ChatBody) : Eff Response :=
  fun w =>
    if body.message.truthy then
      match processConversation env body.message (body.history.orElse (.arr [])) w with
      | (.error m, w1) => (.error m, w1)
      | (.ok response, w1) =>
        send env ⟨200, .obj [("message", body.message), ("response", response),
                             ("timestamp", .str env.isoNow)]⟩ w1
    else
      send env ⟨400, .obj [("error", .str "Message is required")]⟩ w

/-- The handler of `POST /chat`: the `try` block and its `catch`. -/
def chatRoute (env : Env) (body : ChatBody) : Eff Response :=
  fun w =>
    match chatTry env body w with
    | (.ok r, w1) => (.ok r, w1)
    | (.error m, w1) =>
      send env ⟨500, .obj [("error", .str "Chat processing failed"), ("message", .str m)]⟩
        (w1.record (.consoleError "Chat processing error:" m))

/-! ## Observations on logs -/

/-- Number of `fs.unlinkSync` calls on a path recorded in a log. -/
def unlinkCount (path : String) : List Event → Nat
  | [] => 0
  | .unlink p :: rest => (if p = path then 1 else 0) + unlinkCount path rest
  | _ :: rest => unlinkCount path rest

/-- Whether an event is a call of the transcription or of the synthesis provider. -/
def Event.isVoiceCall : Event → Bool
  | .transcribe _ => true
  | .synthesize _ => true
  | _ => false

/-- Whether an event is the invocation of one of the six task handlers. -/
def Event.isHandlerCall : Event → Bool
  | .handler _ _ => true
  | _ => false

/-- A stub environment: fixed provider results, every response is written. -/
def stubEnv (transcribe : String → Except String String)
    (complete : ChatParams → Except String Completion)
    (speech : JVal → Except String JVal) : Env :=
  { transcribe := transcribe
    complete := complete
    speech := speech
    jsonParse := fun _ => .ok (.arr [])
    dateNow := 1700000000000
    isoNow := "2023-11-14T22:13:20.000Z"
    randomSuffix := "k3j9x2m1q"
    send := fun _ => .ok ()
    objectProto := fun _ v => .ok v }

/-- The stubs of `tests/setup.js`: every provider call resolves to a fixed value. -/
def testEnv : Env :=
  stubEnv (fun _ => .ok "Test transcription")
    (fun _ => .ok ⟨[⟨.str "Test AI response"⟩]⟩)
    (fun _ => .ok (.str "mock audio buffer"))

/-- The state of a fresh process: no temp file, the constructor's task table, empty log. -/
def initialWorld : World := { files := [], tasks := initialTasks, log := [] }

/-- Between `w0` and `w` the files are the same and no `unlinkSync` call on `path` was made. -/
def Untouched (path : String) (w0 w : World) : Prop :=
  w.files = w0.files ∧ unlinkCount path w.log = unlinkCount path w0.log

/-- In `w` the file `path` is absent and, since `w0`, exactly one `unlinkSync` call on it
was made. -/
def DeletedOnce (path : String) (w0 w : World) : Prop :=
  path ∉ w.files ∧ unlinkCount path w.log = unlinkCount path w0.log + 1

/-- The path of a stored upload. -/
def sampleUpload : String := "temp-audio/audio-1700000000000.wav"

/-- A state in which the upload `sampleUpload` is on disk. -/
def worldWithUpload : World := { initialWorld with files := [sampleUpload] }

/-- Providers for which transcription and the conversation succeed and synthesis fails. -/
def synthesisFailsEnv : Env :=
  stubEnv (fun _ => .ok "hello") (fun _ => .ok ⟨[⟨.str "hi"⟩]⟩)
    (fun _ => .error "quota exceeded")

/-- The `history` of a chat request that follows the documented shape: absent, or an
array of turns. -/
def historyValue : Option (List JVal) → JVal
  | none => .undefined
  | some turns => .arr turns

/-- An upload of a standard MP3 file. -/
def mp3Upload : UploadFile := { originalname := "song.mp3", mimetype := "audio/mpeg", size := 1024 }

/-- An upload whose extension is `wavx`, declared as `audio/wav`. -/
def wavxUpload : UploadFile := { originalname := "clip.wavx", mimetype := "audio/wav", size := 1024 }

/-- An upload of a WAV file, one byte below the size limit. -/
def wavUpload : UploadFile :=
  { originalname := "Memo.WAV", mimetype := "audio/wav", size := 10 * 1024 * 1024 - 1 }

/-- An upload of a WAV file of exactly 10 MiB. -/
def limitUpload : UploadFile :=
  { originalname := "memo.wav", mimetype := "audio/wav", size := 10 * 1024 * 1024 }

/-- Whether an event is a call of the transcription, conversation or synthesis provider
or the invocation of a task handler. -/
def Event.isServiceCall : Event → Bool
  | .transcribe _ => true
  | .complete _ => true
  | .synthesize _ => true
  | .handler _ _ => true
  | _ => false

/-- Providers that all fail. -/
def failingEnv : Env :=
  stubEnv (fun _ => .error "timeout") (fun _ => .error "rate limited")
    (fun _ => .error "quota exceeded")

/-- Value of the expression `params.k || 'dflt'` when `params` is an object with the
own properties `kvs`. -/
def echoOrDefault (kvs : List (String × JVal)) (k dflt : String) : JVal :=
  ((JVal.lookup k kvs).getD .undefined).orElse (.str dflt)

/-- A first accepted upload. -/
def firstUpload : UploadFile :=
  { originalname := "question.wav", mimetype := "audio/wav", size := 4096 }

/-- A second accepted upload, of another file. -/
def secondUpload : UploadFile :=
  { originalname := "answer.wav", mimetype := "audio/x-wav", size := 8192 }

/-- The JSON text of a history with one earlier exchange. -/
def sampleHistoryJson : String :=
  "[\x7b\"role\":\"user\",\"content\":\"Hello\"\x7d," ++
  "\x7b\"role\":\"assistant\",\"content\":\"Hi, how can I help?\"\x7d]"

/-- The history that `sampleHistoryJson` denotes. -/
def sampleHistory : List JVal :=
  [.obj [("role", .str "user"), ("content", .str "Hello")],
   .obj [("role", .str "assistant"), ("content", .str "Hi, how can I help?")]]

/-- The stub providers of the test setup, with a `JSON.parse` that parses
`sampleHistoryJson` and rejects any other text. -/
def historyEnv : Env :=
  { testEnv with
    jsonParse := fun s =>
      if s = sampleHistoryJson then .ok (.arr sampleHistory)
      else .error "Unexpected token in JSON" }

/-! ## Theorems -/

theorem completionMessages_append (l₁ l₂ : List Event) :
    completionMessages (l₁ ++ l₂) = completionMessages l₁ ++ completionMessages l₂ := by
  induction l₁ with
  | nil => rfl
  | cons e rest ih => cases e <;> simp [completionMessages, ih]

/-- The world after `processConversation`: one completion call is logged when the
`messages` array could be built, nothing otherwise. -/
theorem processConversation_world (env : Env) (u h : JVal) (w : World) :
    (processConversation env u h w).2 =
      match buildMessages u h with
      | .error _ => w
      | .ok messages => w.record (.complete (chatParams messages)) := by
  unfold processConversation
  cases buildMessages u h with
  | error m => rfl
  | ok messages =>
    dsimp only
    cases env.complete (chatParams messages) with
    | error m => rfl
    | ok completion =>
      dsimp only
      cases firstChoiceContent completion <;> rfl

/-- C1: for every user message and every history list, `processConversation` makes exactly
one completion call, and its `messages` argument is the turn
`{role: 'system', content: <the fixed system prompt>}`, then every element of the history
in its original order, then the turn `{role: 'user', content: userMessage}` as the last
element; the argument has `history.length + 2` elements. -/
theorem processConversation_messages (env : Env) (userMessage : JVal) (history : List JVal)
    (w : World) :
    (processConversation env userMessage (.arr history) w).2.log
        = w.log ++
          [.complete
            { model := "gpt-4"
              messages :=
                [JVal.obj [("role", .str "system"),
                   ("content", .str
                     ("You are a helpful customer service AI assistant for GetHelp. \n" ++
                      "    You can help customers with:\n" ++
                      "    1. Account information retrieval\n" ++
                      "    2. Appointment scheduling\n" ++
                      "    3. Order status and tracking\n" ++
                      "    4. Bill payment processing\n" ++
                      "    5. Technical support ticketing\n" ++
                      "    6. Product information and recommendations\n" ++
                      "    \n" ++
                      "    Always be polite, helpful, and ask clarifying questions when needed."))]]
                  ++ history
                  ++ [JVal.obj [("role", .str "user"), ("content", userMessage)]]
              max_tokens := 500
              temperature := 7 / 10 }]
      ∧ (completionMessages (processConversation env userMessage (.arr history) w).2.log).map
            List.length
          = (completionMessages w.log).map List.length ++ [history.length + 2] := by
  have hb : buildMessages userMessage (.arr history)
      = .ok (systemTurn :: history ++ [userTurn userMessage]) := rfl
  have hw : (processConversation env userMessage (.arr history) w).2
      = w.record (.complete (chatParams (systemTurn :: history ++ [userTurn userMessage]))) := by
    rw [processConversation_world, hb]
  rw [hw]
  refine ⟨rfl, ?_⟩
  simp [World.record, completionMessages_append, completionMessages, chatParams]

/-! ### Task dispatch -/

/-- An id that is neither an own key of the task table nor a key of `Object.prototype`
makes `executeTask` throw `Unknown task type: <id>`, without any effect. -/
theorem executeTask_unknown (env : Env) (taskType : String) (parameters : JVal) (w : World)
    (hown : ownTask taskType w.tasks = none) (hproto : taskType ∉ objectPrototypeKeys) :
    executeTask env taskType parameters w = (.error ("Unknown task type: " ++ taskType), w) := by
  simp [executeTask, tasksGet, hown, hproto]

/-- C2 (failing input): `toString` is not one of the six registered ids, yet
`executeTask('toString', parameters)` does not throw `Unknown task type`: the lookup
`this.tasks['toString']` finds the method inherited from `Object.prototype`, the call
returns the string `[object Object]`, no handler runs and the state is unchanged. -/
theorem executeTask_toString_returns (env : Env) (parameters : JVal) :
    "toString" ∉ registeredIds
      ∧ executeTask env "toString" parameters initialWorld
          = (.ok (.str "[object Object]"), initialWorld)
      ∧ (executeTask env "toString" parameters initialWorld).1
          ≠ .error ("Unknown task type: " ++ "toString") := by
  refine ⟨by decide, ?_, ?_⟩
  · rfl
  · intro h
    have h2 : (executeTask env "toString" parameters initialWorld).1
        = .ok (.str "[object Object]") := rfl
    rw [h2] at h
    cases h

/-- C3 (counterexample): with `parameters = null` the handler bound to
`schedule_appointment` throws a `TypeError`, and `executeTask` throws it as well instead
of returning `{success: false, error: m}`. -/
theorem executeTask_handler_error_not_converted :
    runHandler testEnv .scheduleAppointment .null
        = .error "Cannot read properties of null (reading 'date')"
      ∧ (executeTask testEnv "schedule_appointment" .null initialWorld).1
        = .error "Cannot read properties of null (reading 'date')"
      ∧ (executeTask testEnv "schedule_appointment" .null initialWorld).1
        ≠ .ok (.obj [("success", .bool false),
                     ("error", .str "Cannot read properties of null (reading 'date')")]) := by
  refine ⟨rfl, rfl, ?_⟩
  intro h
  have h2 : (executeTask testEnv "schedule_appointment" .null initialWorld).1
      = .error "Cannot read properties of null (reading 'date')" := rfl
  rw [h2] at h
  cases h

/-- C3 (amended): for every registered task id and every parameters value, if the bound
handler throws an error with message `m`, then `executeTask` throws that same error: the
handler was invoked once and its failure propagates out of the dispatcher unchanged. -/
theorem executeTask_handler_error_propagates (env : Env) (taskType : String) (h : Handler)
    (parameters : JVal) (m : String) (w : World)
    (hreg : ownTask taskType w.tasks = some h)
    (hthrow : runHandler env h parameters = .error m) :
    executeTask env taskType parameters w = (.error m, w.record (.handler h parameters)) := by
  simp [executeTask, tasksGet, hreg, hthrow]

/-- Witness for C3 (amended): `schedule_appointment` with `parameters = null`. -/
theorem executeTask_handler_error_propagates_witness :
    ownTask "schedule_appointment" initialWorld.tasks = some Handler.scheduleAppointment
      ∧ runHandler testEnv .scheduleAppointment .null
          = .error "Cannot read properties of null (reading 'date')"
      ∧ executeTask testEnv "schedule_appointment" .null initialWorld
          = (.error "Cannot read properties of null (reading 'date')",
             initialWorld.record (.handler .scheduleAppointment .null)) :=
  ⟨rfl, rfl, executeTask_handler_error_propagates testEnv "schedule_appointment"
    .scheduleAppointment .null "Cannot read properties of null (reading 'date')"
    initialWorld rfl rfl⟩

/-! ### Effects of the single steps -/

theorem unlinkCount_append (path : String) (l₁ l₂ : List Event) :
    unlinkCount path (l₁ ++ l₂) = unlinkCount path l₁ + unlinkCount path l₂ := by
  induction l₁ with
  | nil => simp [unlinkCount]
  | cons e rest ih => cases e <;> simp [unlinkCount, ih, Nat.add_assoc]

theorem speechToText_eq (env : Env) (path : String) (w : World) :
    speechToText env path w =
      (match env.transcribe path with
        | .error m => .error ("Speech-to-text failed: " ++ m)
        | .ok text => .ok text,
       w.record (.transcribe path)) := by
  unfold speechToText
  cases env.transcribe path <;> rfl

theorem textToSpeech_eq (env : Env) (text : JVal) (w : World) :
    textToSpeech env text w =
      (match env.speech text with
        | .error m => .error ("Text-to-speech failed: " ++ m)
        | .ok mp3 => .ok mp3,
       w.record (.synthesize text)) := by
  unfold textToSpeech
  cases env.speech text <;> rfl

theorem send_eq (env : Env) (r : Response) (w : World) :
    send env r w =
      (match env.send r with
        | .error m => .error m
        | .ok _ => .ok r,
       w.record (.respond r)) := by
  unfold send
  cases env.send r <;> rfl

theorem untouched_refl (path : String) (w : World) : Untouched path w w := ⟨rfl, rfl⟩

theorem untouched_record (path : String) (w0 w : World) (e : Event)
    (he : ∀ p, e ≠ .unlink p) (h : Untouched path w0 w) : Untouched path w0 (w.record e) := by
  obtain ⟨hf, hc⟩ := h
  refine ⟨hf, ?_⟩
  cases e <;> simp_all [World.record, unlinkCount_append, unlinkCount]

theorem deletedOnce_record (path : String) (w0 w : World) (e : Event)
    (he : ∀ p, e ≠ .unlink p) (h : DeletedOnce path w0 w) : DeletedOnce path w0 (w.record e) := by
  obtain ⟨hf, hc⟩ := h
  refine ⟨hf, ?_⟩
  cases e <;> simp_all [World.record, unlinkCount_append, unlinkCount]

theorem processConversation_untouched (env : Env) (u h : JVal) (path : String) (w0 w : World)
    (hw : Untouched path w0 w) : Untouched path w0 (processConversation env u h w).2 := by
  rw [processConversation_world]
  cases buildMessages u h with
  | error m => exact hw
  | ok messages => exact untouched_record path w0 w _ (by intro p hp; cases hp) hw

theorem unlinkSync_deletes (path : String) (w0 w : World) (hw : Untouched path w0 w)
    (hex : path ∈ w0.files) :
    (unlinkSync path w).1 = .ok () ∧ DeletedOnce path w0 (unlinkSync path w).2 := by
  obtain ⟨hf, hc⟩ := hw
  have hmem : path ∈ w.files := hf ▸ hex
  simp [unlinkSync, hmem, DeletedOnce, World.record, unlinkCount_append, unlinkCount, hc]

/-! ### Cleanup of the upload in `POST /process` -/

/-- After the `try` block of `POST /process` on a stored upload: either the block threw
before the delete and the file is untouched, or the file was deleted exactly once. -/
theorem processTry_cleanup (env : Env) (path : String) (history : Option String) (w : World)
    (hex : path ∈ w.files) (r : Except String Response) (w1 : World)
    (h : processTry env ⟨some path, history⟩ w = (r, w1)) :
    (Untouched path w w1 ∧ ∃ m, r = .error m) ∨ DeletedOnce path w w1 := by
  have ht : Untouched path w (w.record (.transcribe path)) :=
    untouched_record path w w _ (by intro p hp; cases hp) (untouched_refl path w)
  simp only [processTry, speechToText_eq] at h
  cases h1 : env.transcribe path with
  | error m =>
    simp only [h1] at h
    cases h
    exact .inl ⟨ht, _, rfl⟩
  | ok transcription =>
    simp only [h1] at h
    cases h2 : parseHistory env history with
    | error m =>
      simp only [h2] at h
      cases h
      exact .inl ⟨ht, _, rfl⟩
    | ok conversationHistory =>
      simp only [h2] at h
      have hc := processConversation_untouched env (.str transcription) conversationHistory
        path w _ ht
      rcases h3 : processConversation env (.str transcription) conversationHistory
        (w.record (.transcribe path)) with ⟨rc, w2⟩
      rw [h3] at hc h
      cases rc with
      | error m =>
        simp only at h
        cases h
        exact .inl ⟨hc, _, rfl⟩
      | ok aiResponse =>
        simp only [textToSpeech_eq] at h
        have hs : Untouched path w (w2.record (.synthesize aiResponse)) :=
          untouched_record path w w2 _ (by intro p hp; cases hp) hc
        cases h4 : env.speech aiResponse with
        | error m =>
          simp only [h4] at h
          cases h
          exact .inl ⟨hs, _, rfl⟩
        | ok audioResponse =>
          simp only [h4] at h
          obtain ⟨hu1, hu2⟩ := unlinkSync_deletes path w _ hs hex
          rcases h5 : unlinkSync path (w2.record (.synthesize aiResponse)) with ⟨ru, w4⟩
          rw [h5] at hu1 hu2 h
          simp only at hu1
          subst hu1
          simp only [send_eq] at h
          cases h
          exact .inr (deletedOnce_record path w w4 _ (by intro p hp; cases hp) hu2)

/-- C4: for every voice request with a stored upload and every outcome of transcription,
history parsing, conversation, synthesis and sending of the response, when the `/process`
handler finishes the uploaded file no longer exists and exactly one `unlinkSync` call on
its path was made during the request. -/
theorem processRoute_deletes_upload_once (env : Env) (path : String) (history : Option String)
    (w : World) (hex : path ∈ w.files) :
    path ∉ (processRoute env ⟨some path, history⟩ w).2.files
      ∧ unlinkCount path (processRoute env ⟨some path, history⟩ w).2.log
          = unlinkCount path w.log + 1 := by
  change DeletedOnce path w (processRoute env ⟨some path, history⟩ w).2
  rcases ht : processTry env ⟨some path, history⟩ w with ⟨r, w1⟩
  have hspec := processTry_cleanup env path history w hex r w1 ht
  simp only [processRoute, ht]
  cases r with
  | ok resp =>
    rcases hspec with ⟨_, m, hm⟩ | hdone
    · cases hm
    · exact hdone
  | error m =>
    simp only [cleanupOnError]
    rcases hspec with ⟨hun, _⟩ | hdone
    · have hun2 : Untouched path w (w1.record (.consoleError "Voice processing error:" m)) :=
        untouched_record path w w1 _ (by intro p hp; cases hp) hun
      have hmem : path ∈ (w1.record (.consoleError "Voice processing error:" m)).files :=
        hun2.1 ▸ hex
      obtain ⟨hu1, hu2⟩ := unlinkSync_deletes path w _ hun2 hex
      simp only [existsSync, hmem, decide_True, if_true]
      rcases h5 : unlinkSync path (w1.record (.consoleError "Voice processing error:" m))
        with ⟨ru, w2⟩
      rw [h5] at hu1 hu2
      simp only at hu1
      subst hu1
      simp only [send_eq]
      exact deletedOnce_record path w w2 _ (by intro p hp; cases hp) hu2
    · have hdone2 : DeletedOnce path w (w1.record (.consoleError "Voice processing error:" m)) :=
        deletedOnce_record path w w1 _ (by intro p hp; cases hp) hdone
      have hmem : path ∉ (w1.record (.consoleError "Voice processing error:" m)).files :=
        hdone2.1
      simp only [existsSync, hmem, decide_False, Bool.false_eq_true, if_false, send_eq]
      exact deletedOnce_record path w _ _ (by intro p hp; cases hp) hdone2

/-- Witness for C4: a request whose synthesis stage fails. -/
theorem processRoute_deletes_upload_once_witness :
    sampleUpload ∈ worldWithUpload.files
      ∧ sampleUpload ∉ (processRoute synthesisFailsEnv ⟨some sampleUpload, none⟩
          worldWithUpload).2.files
      ∧ unlinkCount sampleUpload
          (processRoute synthesisFailsEnv ⟨some sampleUpload, none⟩ worldWithUpload).2.log
          = unlinkCount sampleUpload worldWithUpload.log + 1 :=
  ⟨by decide,
   processRoute_deletes_upload_once synthesisFailsEnv sampleUpload none worldWithUpload
     (by decide)⟩

/-! ### Synthesis failure in `POST /process` -/

theorem cleanupOnError_fst (req : VoiceRequest) (w : World) :
    (cleanupOnError req w).1 = .ok () := by
  unfold cleanupOnError
  cases req.file with
  | none => rfl
  | some path =>
    by_cases h : path ∈ w.files <;> simp [existsSync, unlinkSync, h]

/-- Once the `try` block of `POST /process` has thrown an error with message `m`, the
handler answers with status 500 and that message, provided the response can be written. -/
theorem processRoute_of_try_error (env : Env) (req : VoiceRequest) (w w1 : World) (m : String)
    (ht : processTry env req w = (.error m, w1))
    (hsend : env.send ⟨500, .obj [("error", .str "Voice processing failed"),
                                  ("message", .str m)]⟩ = .ok ()) :
    (processRoute env req w).1
      = .ok ⟨500, .obj [("error", .str "Voice processing failed"), ("message", .str m)]⟩ := by
  simp only [processRoute, ht]
  have hc := cleanupOnError_fst req (w1.record (.consoleError "Voice processing error:" m))
  rcases hcl : cleanupOnError req (w1.record (.consoleError "Voice processing error:" m))
    with ⟨rc, w2⟩
  rw [hcl] at hc
  simp only at hc
  subst hc
  simp only [send_eq, hsend]

/-- C5 (counterexample): transcription and the conversation reply succeed, synthesis
fails, and the `/process` handler answers with status 500, not with a successful response
carrying the transcription and the reply. -/
theorem processRoute_synthesis_failure_example :
    (speechToText synthesisFailsEnv sampleUpload worldWithUpload).1 = .ok "hello"
      ∧ (processConversation synthesisFailsEnv (.str "hello") (.arr []) worldWithUpload).1
          = .ok (.str "hi")
      ∧ (textToSpeech synthesisFailsEnv (.str "hi") worldWithUpload).1
          = .error "Text-to-speech failed: quota exceeded"
      ∧ (processRoute synthesisFailsEnv ⟨some sampleUpload, none⟩ worldWithUpload).1
          = .ok ⟨500, .obj [("error", .str "Voice processing failed"),
                            ("message", .str "Text-to-speech failed: quota exceeded")]⟩
      ∧ (processRoute synthesisFailsEnv ⟨some sampleUpload, none⟩ worldWithUpload).1
          ≠ .ok ⟨200, voiceBody "hello" (.str "hi") .null⟩ := by
  have h : (processRoute synthesisFailsEnv ⟨some sampleUpload, none⟩ worldWithUpload).1
      = .ok ⟨500, .obj [("error", .str "Voice processing failed"),
                        ("message", .str "Text-to-speech failed: quota exceeded")]⟩ := rfl
  refine ⟨rfl, rfl, rfl, h, ?_⟩
  rw [h]
  intro hne
  injection hne with hne
  injection hne with hstatus _
  exact absurd hstatus (by decide)

/-- C5 (amended): for every voice request in which transcription and the conversation
reply succeed but `textToSpeech` fails with provider message `m`, the `/process` handler
answers with status 500 and the body
`{error: 'Voice processing failed', message: 'Text-to-speech failed: ' + m}`; neither the
transcription nor the reply is returned. -/
theorem processRoute_synthesis_failure (env : Env) (path : String) (history : Option String)
    (w : World) (transcription : String) (conversationHistory reply : JVal) (m : String)
    (ht : env.transcribe path = .ok transcription)
    (hh : parseHistory env history = .ok conversationHistory)
    (hc : ∀ w1, (processConversation env (.str transcription) conversationHistory w1).1
            = .ok reply)
    (hs : env.speech reply = .error m)
    (hsend : env.send ⟨500, .obj [("error", .str "Voice processing failed"),
              ("message", .str ("Text-to-speech failed: " ++ m))]⟩ = .ok ()) :
    (processRoute env ⟨some path, history⟩ w).1
      = .ok ⟨500, .obj [("error", .str "Voice processing failed"),
                        ("message", .str ("Text-to-speech failed: " ++ m))]⟩ := by
  have hc1 := hc (w.record (.transcribe path))
  rcases h3 : processConversation env (.str transcription) conversationHistory
    (w.record (.transcribe path)) with ⟨rc, w2⟩
  rw [h3] at hc1
  simp only at hc1
  subst hc1
  refine processRoute_of_try_error env _ w (w2.record (.synthesize reply)) _ ?_ hsend
  simp only [processTry, speechToText_eq, ht, hh, h3, textToSpeech_eq, hs]

/-- Witness for C5 (amended). -/
theorem processRoute_synthesis_failure_witness :
    (processRoute synthesisFailsEnv ⟨some sampleUpload, none⟩ worldWithUpload).1
      = .ok ⟨500, .obj [("error", .str "Voice processing failed"),
                        ("message", .str ("Text-to-speech failed: " ++ "quota exceeded"))]⟩ :=
  processRoute_synthesis_failure synthesisFailsEnv sampleUpload none worldWithUpload
    "hello" (.arr []) (.str "hi") "quota exceeded" rfl rfl (fun _ => rfl) rfl rfl

/-! ### `GET /list` and `account_info` -/

/-- C6: the body that `GET /list` hands to `res.json` is the same for every environment and
state; its `availableTasks` has exactly six descriptors, their ids are, in order,
`account_info`, `schedule_appointment`, `order_tracking`, `bill_payment`,
`technical_support`, `product_info`, pairwise distinct, and every descriptor has exactly
the fields `id`, `name`, `description`, `endpoint`. -/
theorem listRoute_descriptors (env : Env) (w : World) :
    (listRoute env w).2.log
        = w.log ++ [.respond ⟨200, .obj [("availableTasks", .arr availableTasks)]⟩]
      ∧ ((listRoute env w).1 = .ok ⟨200, .obj [("availableTasks", .arr availableTasks)]⟩
          ∨ ∃ m, (listRoute env w).1 = .error m)
      ∧ availableTasks.length = 6
      ∧ availableTasks.map descriptorId
          = [some "account_info", some "schedule_appointment", some "order_tracking",
             some "bill_payment", some "technical_support", some "product_info"]
      ∧ (availableTasks.map descriptorId).Nodup
      ∧ ∀ d ∈ availableTasks, d.keys = ["id", "name", "description", "endpoint"] := by
  refine ⟨?_, ?_, rfl, rfl, by decide, by decide⟩
  · simp [listRoute, send_eq, World.record]
  · simp only [listRoute, send_eq]
    cases env.send _ with
    | error m => exact .inr ⟨m, rfl⟩
    | ok u => exact .inl rfl

/-- C7: for every parameters value, `executeTask('account_info', parameters)` returns a
result whose `success` is `true` and whose `data` has the fields `accountNumber`,
`balance`, `lastPayment`, `nextDueDate`, and the `/execute` route answers with
`{taskType: 'account_info', result, timestamp}` for that result. -/
theorem executeTask_account_info (env : Env) (parameters : JVal) (w : World)
    (hw : w.tasks = initialTasks)
    (hsend : ∀ result, env.send ⟨200, .obj [("taskType", .str "account_info"),
        ("result", result), ("timestamp", .str env.isoNow)]⟩ = .ok ()) :
    ∃ data result,
      result = JVal.obj [("success", .bool true), ("data", data)]
        ∧ (executeTask env "account_info" parameters w).1 = .ok result
        ∧ (∀ k ∈ ["accountNumber", "balance", "lastPayment", "nextDueDate"], k ∈ data.keys)
        ∧ (executeRoute env ⟨some "account_info", parameters⟩ w).1
            = .ok ⟨200, .obj [("taskType", .str "account_info"), ("result", result),
                              ("timestamp", .str env.isoNow)]⟩ := by
  refine ⟨.obj [("accountNumber", .str "****1234"), ("balance", .str "$1,250.00"),
    ("lastPayment", .str "2024-01-15"), ("nextDueDate", .str "2024-02-15")], _, rfl, ?_, ?_, ?_⟩
  · simp [executeTask, tasksGet, hw, initialTasks, ownTask, runHandler, getAccountInfo]
  · decide
  · simp [executeRoute, executeTry, executeTask, tasksGet, hw, initialTasks, ownTask,
      runHandler, getAccountInfo, send_eq, hsend]

/-- Witness for C7: the request of the test suite, `parameters = {}`. -/
theorem executeTask_account_info_witness :
    ∃ data result,
      result = JVal.obj [("success", .bool true), ("data", data)]
        ∧ (executeTask testEnv "account_info" (.obj []) initialWorld).1 = .ok result
        ∧ (∀ k ∈ ["accountNumber", "balance", "lastPayment", "nextDueDate"], k ∈ data.keys)
        ∧ (executeRoute testEnv ⟨some "account_info", .obj []⟩ initialWorld).1
            = .ok ⟨200, .obj [("taskType", .str "account_info"), ("result", result),
                              ("timestamp", .str testEnv.isoNow)]⟩ :=
  executeTask_account_info testEnv (.obj []) initialWorld rfl (fun _ => rfl)

/-! ### The upload filter -/

theorem allowedTypesTest_dot (e : String) (he : e ∈ allowedTypes) :
    allowedTypesTest ("." ++ e) = true := by
  simp only [allowedTypes, List.mem_cons, List.mem_singleton, List.not_mem_nil, or_false] at he
  rcases he with rfl | rfl | rfl | rfl <;> decide

/-- C8 (counterexample): two uploads with an allowed extension and a size of at most
10 MiB that the upload filter refuses: `song.mp3` of 1024 bytes declared with the
standard MP3 type `audio/mpeg`, refused by `fileFilter`, and `memo.wav` of exactly
10 MiB declared as `audio/wav`, refused by the size limit. -/
theorem uploadCheck_refuses_allowed_extension :
    extname mp3Upload.originalname = ".mp3"
      ∧ mp3Upload.size ≤ 10 * 1024 * 1024
      ∧ fileFilter mp3Upload = .error "Only audio files are allowed"
      ∧ uploadCheck mp3Upload = .error "Only audio files are allowed"
      ∧ extname limitUpload.originalname = ".wav"
      ∧ limitUpload.size ≤ 10 * 1024 * 1024
      ∧ fileFilter limitUpload = .ok true
      ∧ uploadCheck limitUpload = .error "File too large" :=
  ⟨by decide, by decide, rfl, rfl, by decide, by decide, rfl, rfl⟩

/-- C8 (amended): for every upload whose extension, in lower case, is one of `wav`, `mp3`,
`m4a`, `webm`, whose declared MIME type contains one of `wav`, `mp3`, `m4a`, `webm`, and
whose size is less than 10 MiB (`10 * 1024 * 1024` bytes), the upload filter of the voice
path accepts the file. -/
theorem uploadCheck_accepts (file : UploadFile) (e : String) (he : e ∈ allowedTypes)
    (hext : toLowerCase (extname file.originalname) = "." ++ e)
    (hmime : allowedTypesTest file.mimetype = true)
    (hsize : file.size < 10 * 1024 * 1024) :
    fileFilter file = .ok true ∧ uploadCheck file = .ok () := by
  have hf : fileFilter file = .ok true := by
    simp [fileFilter, hext, hmime, allowedTypesTest_dot e he]
  refine ⟨hf, ?_⟩
  simp only [uploadCheck, hf, fileSizeLimit]
  simp [hsize]

/-- Witness for C8 (amended): `Memo.WAV` declared as `audio/wav`, of 10485759 bytes. -/
theorem uploadCheck_accepts_witness :
    wavUpload.size = 10485759
      ∧ fileFilter wavUpload = .ok true ∧ uploadCheck wavUpload = .ok () :=
  ⟨by decide,
   uploadCheck_accepts wavUpload "wav" (by decide) (by decide) (by decide) (by decide)⟩

/-- An upload whose extension, in lower case, contains none of `wav`, `mp3`, `m4a`,
`webm` is refused, and the request fails before the route handler runs: nothing is stored
and no provider is called. -/
theorem voiceEndpoint_refuses (env : Env) (file : UploadFile) (history : Option String)
    (w : World)
    (hext : allowedTypesTest (toLowerCase (extname file.originalname)) = false) :
    uploadCheck file = .error "Only audio files are allowed"
      ∧ voiceEndpoint env (some file) history w = (.error "Only audio files are allowed", w) := by
  have hc : uploadCheck file = .error "Only audio files are allowed" := by
    simp [uploadCheck, fileFilter, hext]
  exact ⟨hc, by simp [voiceEndpoint, uploadSingle, hc]⟩

/-- C9 (failing input): the upload `clip.wavx` declared as `audio/wav` has the extension
`.wavx`, which is none of the four allowed ones, yet the filter accepts it
(`/wav|mp3|m4a|webm/` matches inside `.wavx`), the file is stored, and the route handler
runs and calls the transcription provider on it. -/
theorem voiceEndpoint_wavx_accepted :
    extname wavxUpload.originalname = ".wavx"
      ∧ toLowerCase (extname wavxUpload.originalname) ∉ [".wav", ".mp3", ".m4a", ".webm"]
      ∧ fileFilter wavxUpload = .ok true
      ∧ uploadCheck wavxUpload = .ok ()
      ∧ (voiceEndpoint testEnv (some wavxUpload) none initialWorld).2.log.head?
          = some (.transcribe "temp-audio/audio-1700000000000.wavx")
      ∧ (voiceEndpoint testEnv (some wavxUpload) none initialWorld).1
          = .ok ⟨200, voiceBody "Test transcription" (.str "Test AI response")
                        (.str "mock audio buffer")⟩ :=
  ⟨by decide, by decide, rfl, rfl, rfl, rfl⟩

/-! ### `POST /chat` -/

/-- C10: for every truthy message (in particular every non-empty string), every history
(absent, or an array of turns) and every completion whose first choice has content `c`,
`processConversation` returns exactly `c`, the chat route answers
`{message, response: c, timestamp}` with status 200, and the only effects of the request
are the completion call and the response: no transcription and no synthesis call. -/
theorem chatRoute_returns_completion (env : Env) (message : JVal)
    (history : Option (List JVal)) (c : JVal) (rest : List Choice) (w : World)
    (hm : message.truthy = true)
    (hc : env.complete (chatParams (systemTurn :: history.getD [] ++ [userTurn message]))
            = .ok ⟨⟨c⟩ :: rest⟩)
    (hsend : env.send ⟨200, .obj [("message", message), ("response", c),
                                  ("timestamp", .str env.isoNow)]⟩ = .ok ()) :
    (processConversation env message (historyValue history) w).1 = .ok c
      ∧ (chatRoute env ⟨message, historyValue history⟩ w).1
          = .ok ⟨200, .obj [("message", message), ("response", c),
                            ("timestamp", .str env.isoNow)]⟩
      ∧ (chatRoute env ⟨message, historyValue history⟩ w).2.log
          = w.log ++
              [.complete (chatParams (systemTurn :: history.getD [] ++ [userTurn message])),
               .respond ⟨200, .obj [("message", message), ("response", c),
                                    ("timestamp", .str env.isoNow)]⟩]
      ∧ (chatRoute env ⟨message, historyValue history⟩ w).2.log.filter Event.isVoiceCall
          = w.log.filter Event.isVoiceCall := by
  have hb : ∀ hv, (hv = historyValue history ∨ hv = (historyValue history).orElse (.arr [])) →
      buildMessages message hv = .ok (systemTurn :: history.getD [] ++ [userTurn message]) := by
    intro hv hhv
    cases history with
    | none => rcases hhv with rfl | rfl <;> rfl
    | some turns => rcases hhv with rfl | rfl <;> rfl
  have hp : ∀ hv, (hv = historyValue history ∨ hv = (historyValue history).orElse (.arr [])) →
      processConversation env message hv w
        = (.ok c, w.record (.complete
            (chatParams (systemTurn :: history.getD [] ++ [userTurn message])))) := by
    intro hv hhv
    simp only [processConversation, hb hv hhv, hc, firstChoiceContent]
  have hroute : chatRoute env ⟨message, historyValue history⟩ w
      = (.ok ⟨200, .obj [("message", message), ("response", c),
                         ("timestamp", .str env.isoNow)]⟩,
         (w.record (.complete
            (chatParams (systemTurn :: history.getD [] ++ [userTurn message])))).record
           (.respond ⟨200, .obj [("message", message), ("response", c),
                                 ("timestamp", .str env.isoNow)]⟩)) := by
    simp only [chatRoute, chatTry, hm, if_true, hp _ (.inr rfl), send_eq, hsend]
  refine ⟨by rw [hp _ (.inl rfl)], by rw [hroute], ?_, ?_⟩
  · rw [hroute]
    simp [World.record]
  · rw [hroute]
    simp [World.record, Event.isVoiceCall]

/-- Witness for C10: the scenario of the test stubs, message `hi` with an empty history. -/
theorem chatRoute_returns_completion_witness :
    (processConversation testEnv (.str "hi") (historyValue (some [])) initialWorld).1
        = .ok (.str "Test AI response")
      ∧ (chatRoute testEnv ⟨.str "hi", historyValue (some [])⟩ initialWorld).1
          = .ok ⟨200, .obj [("message", .str "hi"), ("response", .str "Test AI response"),
                            ("timestamp", .str testEnv.isoNow)]⟩
      ∧ (chatRoute testEnv ⟨.str "hi", historyValue (some [])⟩ initialWorld).2.log
          = initialWorld.log ++
              [.complete (chatParams (systemTurn :: (some []).getD [] ++ [userTurn (.str "hi")])),
               .respond ⟨200, .obj [("message", .str "hi"),
                                    ("response", .str "Test AI response"),
                                    ("timestamp", .str testEnv.isoNow)]⟩]
      ∧ (chatRoute testEnv ⟨.str "hi", historyValue (some [])⟩ initialWorld).2.log.filter
            Event.isVoiceCall
          = initialWorld.log.filter Event.isVoiceCall :=
  chatRoute_returns_completion testEnv (.str "hi") (some []) (.str "Test AI response") []
    initialWorld (by decide) rfl rfl

/-! ### Missing input and unknown task types -/

theorem ownTask_eq_none (key : String) (tasks : List (String × Handler))
    (h : key ∉ tasks.map Prod.fst) : ownTask key tasks = none := by
  induction tasks with
  | nil => rfl
  | cons kv rest ih =>
    obtain ⟨k, hd⟩ := kv
    simp only [List.map_cons, List.mem_cons, not_or] at h
    have hk : ¬ k = key := fun e => h.1 e.symm
    simp only [ownTask, hk, if_false]
    exact ih h.2

/-- C11: when the required input is missing (no audio file on the voice route, a falsy
message on the chat route, no or an empty `taskType` on the execute route) the handler
answers with status 400 and an error body, and the only effect is that response: no
transcription, conversation, synthesis or task handler call is made. -/
theorem missing_input_is_400 (env : Env) (history : Option String)
    (message chatHistory parameters : JVal) (w : World)
    (hmsg : message.truthy = false)
    (hsend : ∀ text, env.send ⟨400, .obj [("error", .str text)]⟩ = .ok ()) :
    processRoute env ⟨none, history⟩ w
        = (.ok ⟨400, .obj [("error", .str "No audio file provided")]⟩,
           w.record (.respond ⟨400, .obj [("error", .str "No audio file provided")]⟩))
      ∧ voiceEndpoint env none history w
        = (.ok ⟨400, .obj [("error", .str "No audio file provided")]⟩,
           w.record (.respond ⟨400, .obj [("error", .str "No audio file provided")]⟩))
      ∧ chatRoute env ⟨message, chatHistory⟩ w
        = (.ok ⟨400, .obj [("error", .str "Message is required")]⟩,
           w.record (.respond ⟨400, .obj [("error", .str "Message is required")]⟩))
      ∧ executeRoute env ⟨none, parameters⟩ w
        = (.ok ⟨400, .obj [("error", .str "Task type is required")]⟩,
           w.record (.respond ⟨400, .obj [("error", .str "Task type is required")]⟩))
      ∧ executeRoute env ⟨some "", parameters⟩ w
        = (.ok ⟨400, .obj [("error", .str "Task type is required")]⟩,
           w.record (.respond ⟨400, .obj [("error", .str "Task type is required")]⟩))
      ∧ (Event.respond ⟨400, .obj [("error", .str "No audio file provided")]⟩).isServiceCall
          = false := by
  have hp : processRoute env ⟨none, history⟩ w
      = (.ok ⟨400, .obj [("error", .str "No audio file provided")]⟩,
         w.record (.respond ⟨400, .obj [("error", .str "No audio file provided")]⟩)) := by
    simp only [processRoute, processTry, send_eq, hsend]
  refine ⟨hp, ?_, ?_, ?_, ?_, rfl⟩
  · simp only [voiceEndpoint, uploadSingle, hp]
  · simp [chatRoute, chatTry, hmsg, send_eq, hsend]
  · simp only [executeRoute, executeTry, send_eq, hsend]
  · simp only [executeRoute, executeTry, send_eq, hsend, if_true]

/-- Witness for C11: requests without a file, with an empty message, without a task type. -/
theorem missing_input_is_400_witness :
    processRoute testEnv ⟨none, none⟩ initialWorld
        = (.ok ⟨400, .obj [("error", .str "No audio file provided")]⟩,
           initialWorld.record (.respond ⟨400, .obj [("error", .str "No audio file provided")]⟩))
      ∧ voiceEndpoint testEnv none none initialWorld
        = (.ok ⟨400, .obj [("error", .str "No audio file provided")]⟩,
           initialWorld.record (.respond ⟨400, .obj [("error", .str "No audio file provided")]⟩))
      ∧ chatRoute testEnv ⟨.str "", .undefined⟩ initialWorld
        = (.ok ⟨400, .obj [("error", .str "Message is required")]⟩,
           initialWorld.record (.respond ⟨400, .obj [("error", .str "Message is required")]⟩))
      ∧ executeRoute testEnv ⟨none, .undefined⟩ initialWorld
        = (.ok ⟨400, .obj [("error", .str "Task type is required")]⟩,
           initialWorld.record (.respond ⟨400, .obj [("error", .str "Task type is required")]⟩))
      ∧ executeRoute testEnv ⟨some "", .undefined⟩ initialWorld
        = (.ok ⟨400, .obj [("error", .str "Task type is required")]⟩,
           initialWorld.record (.respond ⟨400, .obj [("error", .str "Task type is required")]⟩))
      ∧ (Event.respond ⟨400, .obj [("error", .str "No audio file provided")]⟩).isServiceCall
          = false :=
  missing_input_is_400 testEnv none (.str "") .undefined .undefined initialWorld
    (by decide) (fun _ => rfl)

/-- C12 (counterexample): the request `{taskType: 'nonexistent_task', parameters: {}}`
names no registered task and is answered with status 500, a server-fault response. -/
theorem executeRoute_unknown_is_500_example :
    "nonexistent_task" ∉ registeredIds
      ∧ (executeRoute testEnv ⟨some "nonexistent_task", .obj []⟩ initialWorld).1
          = .ok ⟨500, .obj [("error", .str "Task execution failed"),
                            ("message", .str "Unknown task type: nonexistent_task")]⟩
      ∧ ¬ ((400 : Nat) ≤ 500 ∧ (500 : Nat) < 500) :=
  ⟨by decide, rfl, by decide⟩

/-- C12 (amended): for every execute request whose `taskType` is present, is not
registered and is not a property name of `Object.prototype`, the `/execute` route answers
with status 500 and the body
`{error: 'Task execution failed', message: 'Unknown task type: ' + taskType}`, and no
handler is invoked. -/
theorem executeRoute_unknown_is_500 (env : Env) (taskType : String) (parameters : JVal)
    (w : World)
    (hw : w.tasks = initialTasks)
    (hne : taskType ≠ "")
    (hreg : taskType ∉ registeredIds)
    (hproto : taskType ∉ objectPrototypeKeys)
    (hsend : env.send ⟨500, .obj [("error", .str "Task execution failed"),
        ("message", .str ("Unknown task type: " ++ taskType))]⟩ = .ok ()) :
    executeRoute env ⟨some taskType, parameters⟩ w
      = (.ok ⟨500, .obj [("error", .str "Task execution failed"),
                         ("message", .str ("Unknown task type: " ++ taskType))]⟩,
         (w.record (.consoleError "Task execution error:"
            ("Unknown task type: " ++ taskType))).record
           (.respond ⟨500, .obj [("error", .str "Task execution failed"),
                                 ("message", .str ("Unknown task type: " ++ taskType))]⟩)) := by
  have hown : ownTask taskType w.tasks = none := by
    rw [hw]
    exact ownTask_eq_none taskType initialTasks hreg
  have hexec := executeTask_unknown env taskType (parameters.orElse (.obj [])) w hown hproto
  simp only [executeRoute, executeTry, hne, if_false, hexec, send_eq, hsend]

/-- Witness for C12 (amended): the task type `nonexistent_task`. -/
theorem executeRoute_unknown_is_500_witness :
    executeRoute testEnv ⟨some "nonexistent_task", .obj []⟩ initialWorld
      = (.ok ⟨500, .obj [("error", .str "Task execution failed"),
                         ("message", .str ("Unknown task type: " ++ "nonexistent_task"))]⟩,
         (initialWorld.record (.consoleError "Task execution error:"
            ("Unknown task type: " ++ "nonexistent_task"))).record
           (.respond ⟨500, .obj [("error", .str "Task execution failed"),
              ("message", .str ("Unknown task type: " ++ "nonexistent_task"))]⟩)) :=
  executeRoute_unknown_is_500 testEnv "nonexistent_task" (.obj []) initialWorld rfl
    (by decide) (by decide) (by decide) rfl

/-! ### The three adapters -/

/-- C13: each adapter calls its provider exactly once, whatever the outcome.  When the
provider fails with message `m` the adapter throws `Speech-to-text failed: m`,
`Text-to-speech failed: m`, `AI processing failed: m` respectively; when the provider
succeeds the adapter returns its result unchanged (the transcription text, the audio
object, the content of the first choice). -/
theorem adapters_single_attempt (env : Env) (path : String) (text userMessage : JVal)
    (history : List JVal) (w : World) :
    (speechToText env path w).2 = w.record (.transcribe path)
      ∧ (textToSpeech env text w).2 = w.record (.synthesize text)
      ∧ (processConversation env userMessage (.arr history) w).2
          = w.record (.complete (chatParams (systemTurn :: history ++ [userTurn userMessage])))
      ∧ (∀ m, env.transcribe path = .error m →
          (speechToText env path w).1 = .error ("Speech-to-text failed: " ++ m))
      ∧ (∀ m, env.speech text = .error m →
          (textToSpeech env text w).1 = .error ("Text-to-speech failed: " ++ m))
      ∧ (∀ m, env.complete (chatParams (systemTurn :: history ++ [userTurn userMessage]))
            = .error m →
          (processConversation env userMessage (.arr history) w).1
            = .error ("AI processing failed: " ++ m))
      ∧ (∀ t, env.transcribe path = .ok t → (speechToText env path w).1 = .ok t)
      ∧ (∀ mp3, env.speech text = .ok mp3 → (textToSpeech env text w).1 = .ok mp3)
      ∧ (∀ c rest, env.complete (chatParams (systemTurn :: history ++ [userTurn userMessage]))
            = .ok ⟨⟨c⟩ :: rest⟩ →
          (processConversation env userMessage (.arr history) w).1 = .ok c) := by
  have hb : buildMessages userMessage (.arr history)
      = .ok (systemTurn :: history ++ [userTurn userMessage]) := rfl
  refine ⟨?_, ?_, ?_, ?_, ?_, ?_, ?_, ?_, ?_⟩
  · rw [speechToText_eq]
  · rw [textToSpeech_eq]
  · rw [processConversation_world, hb]
  · intro m h
    rw [speechToText_eq, h]
  · intro m h
    rw [textToSpeech_eq, h]
  · intro m h
    simp only [processConversation, hb, h]
  · intro t h
    rw [speechToText_eq, h]
  · intro mp3 h
    rw [textToSpeech_eq, h]
  · intro c rest h
    simp only [processConversation, hb, h, firstChoiceContent]

/-- Witness for C13: providers that all fail, and the stub providers that all succeed. -/
theorem adapters_single_attempt_witness :
    (speechToText failingEnv sampleUpload worldWithUpload).1
        = .error ("Speech-to-text failed: " ++ "timeout")
      ∧ (textToSpeech failingEnv (.str "hi") worldWithUpload).1
        = .error ("Text-to-speech failed: " ++ "quota exceeded")
      ∧ (processConversation failingEnv (.str "hi") (.arr []) worldWithUpload).1
        = .error ("AI processing failed: " ++ "rate limited")
      ∧ (speechToText testEnv sampleUpload worldWithUpload).1 = .ok "Test transcription"
      ∧ (textToSpeech testEnv (.str "hi") worldWithUpload).1 = .ok (.str "mock audio buffer")
      ∧ (processConversation testEnv (.str "hi") (.arr []) worldWithUpload).1
        = .ok (.str "Test AI response") :=
  ⟨(adapters_single_attempt failingEnv sampleUpload (.str "hi") (.str "hi") []
      worldWithUpload).2.2.2.1 "timeout" rfl,
   (adapters_single_attempt failingEnv sampleUpload (.str "hi") (.str "hi") []
      worldWithUpload).2.2.2.2.1 "quota exceeded" rfl,
   (adapters_single_attempt failingEnv sampleUpload (.str "hi") (.str "hi") []
      worldWithUpload).2.2.2.2.2.1 "rate limited" rfl,
   (adapters_single_attempt testEnv sampleUpload (.str "hi") (.str "hi") []
      worldWithUpload).2.2.2.2.2.2.1 "Test transcription" rfl,
   (adapters_single_attempt testEnv sampleUpload (.str "hi") (.str "hi") []
      worldWithUpload).2.2.2.2.2.2.2.1 (.str "mock audio buffer") rfl,
   (adapters_single_attempt testEnv sampleUpload (.str "hi") (.str "hi") []
      worldWithUpload).2.2.2.2.2.2.2.2 (.str "Test AI response") [] rfl⟩

/-! ### Storage names and cleanup -/

/-- C14 (failing input): two distinct uploads that are both accepted and stored at the
same value of `Date.now()` get the same storage filename and the same path, so the second
one replaces the first on disk. -/
theorem storageFilename_collision :
    firstUpload.originalname ≠ secondUpload.originalname
      ∧ uploadCheck firstUpload = .ok ()
      ∧ uploadCheck secondUpload = .ok ()
      ∧ storageFilename testEnv firstUpload = "audio-1700000000000.wav"
      ∧ storageFilename testEnv secondUpload = "audio-1700000000000.wav"
      ∧ (uploadSingle testEnv (some firstUpload) initialWorld).1
          = .ok (some "temp-audio/audio-1700000000000.wav")
      ∧ (uploadSingle testEnv (some secondUpload)
            (uploadSingle testEnv (some firstUpload) initialWorld).2).1
          = .ok (some "temp-audio/audio-1700000000000.wav")
      ∧ (uploadSingle testEnv (some secondUpload)
            (uploadSingle testEnv (some firstUpload) initialWorld).2).2.files
          = ["temp-audio/audio-1700000000000.wav"] :=
  ⟨by decide, rfl, rfl, by decide, by decide, rfl, rfl, by decide⟩

/-- C15 (failing input): a voice request whose upload is already deleted when the
success-path cleanup runs.  Every stage succeeds, then the bare call
`fs.unlinkSync(req.file.path)` throws `ENOENT` and the request is answered with status
500, whereas the guarded cleanup of the `catch` block is a no-op in the same state; a
second bare delete right after a first one throws as well. -/
theorem processRoute_success_cleanup_throws :
    sampleUpload ∉ initialWorld.files
      ∧ (unlinkSync sampleUpload initialWorld).1
        = .error "ENOENT: no such file or directory, unlink 'temp-audio/audio-1700000000000.wav'"
      ∧ cleanupOnError ⟨some sampleUpload, none⟩ initialWorld = (.ok (), initialWorld)
      ∧ (unlinkSync sampleUpload worldWithUpload).1 = .ok ()
      ∧ (unlinkSync sampleUpload (unlinkSync sampleUpload worldWithUpload).2).1
        = .error "ENOENT: no such file or directory, unlink 'temp-audio/audio-1700000000000.wav'"
      ∧ (processRoute testEnv ⟨some sampleUpload, none⟩ initialWorld).1
        = .ok ⟨500, .obj [("error", .str "Voice processing failed"),
            ("message", .str
              "ENOENT: no such file or directory, unlink 'temp-audio/audio-1700000000000.wav'")]⟩
      ∧ (processRoute testEnv ⟨some sampleUpload, none⟩ initialWorld).2.log
        = [.transcribe sampleUpload,
           .complete (chatParams (systemTurn :: [] ++ [userTurn (.str "Test transcription")])),
           .synthesize (.str "Test AI response"),
           .unlink sampleUpload,
           .consoleError "Voice processing error:"
             "ENOENT: no such file or directory, unlink 'temp-audio/audio-1700000000000.wav'",
           .respond ⟨500, .obj [("error", .str "Voice processing failed"),
             ("message", .str
               "ENOENT: no such file or directory, unlink 'temp-audio/audio-1700000000000.wav'")]⟩] :=
  ⟨by decide, rfl, rfl, rfl, rfl, rfl, rfl⟩

theorem cleanupOnError_absent (path : String) (history : Option String) (w : World)
    (h : path ∉ w.files) : cleanupOnError ⟨some path, history⟩ w = (.ok (), w) := by
  simp [cleanupOnError, existsSync, h]

theorem cleanupOnError_removes (req : VoiceRequest) (w : World) (path : String)
    (hp : req.file = some path) : path ∉ (cleanupOnError req w).2.files := by
  unfold cleanupOnError
  rw [hp]
  by_cases h : path ∈ w.files
  · simp [existsSync, unlinkSync, h, World.record]
  · simp [existsSync, h]

/-- The guarded cleanup of the `catch` block of `POST /process`
(`if (req.file && fs.existsSync(req.file.path)) fs.unlinkSync(req.file.path)`) is
idempotent: in every state it raises no error, on a file that has already been deleted it
is a no-op, and applied twice it leaves the same state as applied once. -/
theorem cleanupOnError_idempotent (req : VoiceRequest) (w : World) :
    (cleanupOnError req w).1 = .ok ()
      ∧ (∀ path, req.file = some path → path ∉ w.files → cleanupOnError req w = (.ok (), w))
      ∧ cleanupOnError req (cleanupOnError req w).2 = (.ok (), (cleanupOnError req w).2) := by
  refine ⟨cleanupOnError_fst req w, ?_, ?_⟩
  · intro path hp h
    obtain ⟨file, history⟩ := req
    simp only at hp
    subst hp
    exact cleanupOnError_absent path history w h
  · obtain ⟨file, history⟩ := req
    cases file with
    | none => rfl
    | some path =>
      exact cleanupOnError_absent path history _
        (cleanupOnError_removes ⟨some path, history⟩ w path rfl)

/-- The guarded cleanup on an upload that is absent, and applied twice to one on disk. -/
theorem cleanupOnError_idempotent_witness :
    cleanupOnError ⟨some sampleUpload, none⟩ initialWorld = (.ok (), initialWorld)
      ∧ cleanupOnError ⟨some sampleUpload, none⟩
          (cleanupOnError ⟨some sampleUpload, none⟩ worldWithUpload).2
        = (.ok (), (cleanupOnError ⟨some sampleUpload, none⟩ worldWithUpload).2) :=
  ⟨(cleanupOnError_idempotent ⟨some sampleUpload, none⟩ initialWorld).2.1 sampleUpload rfl
      (by decide),
   (cleanupOnError_idempotent ⟨some sampleUpload, none⟩ worldWithUpload).2.2⟩

/-! ### The voice pipeline when every stage succeeds -/

/-- C16: for every voice request in which all stages succeed, the effects are, in this
order: the transcription of the uploaded file; the completion call whose messages are the
system turn, the history that `JSON.parse` returns for the supplied `history` field (the
empty list when the field is absent or empty) and the turn
`{role: 'user', content: <that transcription>}`; the synthesis of the reply of that call;
the delete of the upload; the response with status 200.  The response carries that
transcription and that reply. -/
theorem processRoute_stages_in_order (env : Env) (path : String) (history : Option String)
    (turns : List JVal) (transcription : String) (reply audio : JVal) (rest : List Choice)
    (w : World)
    (hex : path ∈ w.files)
    (ht : env.transcribe path = .ok transcription)
    (hnone : history = none ∨ history = some "" → turns = [])
    (hsome : ∀ s, history = some s → s ≠ "" → env.jsonParse s = .ok (.arr turns))
    (hc : env.complete
            { model := "gpt-4"
              messages := systemTurn :: turns
                ++ [JVal.obj [("role", .str "user"), ("content", .str transcription)]]
              max_tokens := 500
              temperature := 7 / 10 }
            = .ok ⟨⟨reply⟩ :: rest⟩)
    (hs : env.speech reply = .ok audio)
    (hsend : env.send ⟨200, .obj [("transcription", .str transcription), ("response", reply),
        ("audioResponse",
          if audio.truthy then .str "Audio generated successfully" else .null)]⟩ = .ok ()) :
    (processRoute env ⟨some path, history⟩ w).1
        = .ok ⟨200, .obj [("transcription", .str transcription), ("response", reply),
            ("audioResponse",
              if audio.truthy then .str "Audio generated successfully" else .null)]⟩
      ∧ (processRoute env ⟨some path, history⟩ w).2.log
        = w.log ++
            [.transcribe path,
             .complete
               { model := "gpt-4"
                 messages := systemTurn :: turns
                   ++ [JVal.obj [("role", .str "user"), ("content", .str transcription)]]
                 max_tokens := 500
                 temperature := 7 / 10 },
             .synthesize reply,
             .unlink path,
             .respond ⟨200, .obj [("transcription", .str transcription), ("response", reply),
               ("audioResponse",
                 if audio.truthy then .str "Audio generated successfully" else .null)]⟩]
      ∧ path ∉ (processRoute env ⟨some path, history⟩ w).2.files := by
  have hh : parseHistory env history = .ok (.arr turns) := by
    cases history with
    | none =>
      rw [hnone (.inl rfl)]
      rfl
    | some s =>
      by_cases hs0 : s = ""
      · subst hs0
        rw [hnone (.inr rfl)]
        rfl
      · simp only [parseHistory, hs0, if_false]
        exact hsome s rfl hs0
  have hconv : ∀ w1, processConversation env (.str transcription) (.arr turns) w1
      = (.ok reply, w1.record (.complete
          (chatParams (systemTurn :: turns ++ [userTurn (.str transcription)])))) := by
    intro w1
    have hb : buildMessages (.str transcription) (.arr turns)
        = .ok (systemTurn :: turns ++ [userTurn (.str transcription)]) := rfl
    have hc2 : env.complete
        (chatParams (systemTurn :: turns ++ [userTurn (.str transcription)]))
        = .ok ⟨⟨reply⟩ :: rest⟩ := hc
    simp only [processConversation, hb, hc2, firstChoiceContent]
  have hunlink : ∀ w1 : World, w1.files = w.files →
      unlinkSync path w1
        = (.ok (), { w1.record (.unlink path) with
                      files := (w1.record (.unlink path)).files.filter fun p => p ≠ path }) := by
    intro w1 hf
    have hmem : path ∈ w1.files := hf ▸ hex
    simp only [unlinkSync, hmem, if_true]
  have hsend2 : env.send ⟨200, voiceBody transcription reply audio⟩ = .ok () := hsend
  have htry : processTry env ⟨some path, history⟩ w
      = (.ok ⟨200, voiceBody transcription reply audio⟩,
         { files := w.files.filter fun p => p ≠ path
           tasks := w.tasks
           log := w.log ++
            [.transcribe path,
             .complete (chatParams (systemTurn :: turns ++ [userTurn (.str transcription)])),
             .synthesize reply,
             .unlink path,
             .respond ⟨200, voiceBody transcription reply audio⟩] }) := by
    simp only [processTry, speechToText_eq, ht, hh, hconv, textToSpeech_eq, hs]
    have hfiles : (((w.record (.transcribe path)).record (.complete (chatParams
        (systemTurn :: turns ++ [userTurn (.str transcription)])))).record
        (.synthesize reply)).files = w.files := rfl
    rw [hunlink _ hfiles]
    simp [send_eq, hsend2, World.record]
  refine ⟨?_, ?_, ?_⟩
  · simp only [processRoute, htry]
    rfl
  · simp only [processRoute, htry]
    rfl
  · simp only [processRoute, htry]
    simp

/-- Witness for C16: the stub providers on a stored upload, once with a supplied history
of two turns and once without a history. -/
theorem processRoute_stages_in_order_witness :
    (processRoute historyEnv ⟨some sampleUpload, some sampleHistoryJson⟩ worldWithUpload).2.log
        = worldWithUpload.log ++
            [.transcribe sampleUpload,
             .complete
               { model := "gpt-4"
                 messages := systemTurn :: sampleHistory
                   ++ [JVal.obj [("role", .str "user"), ("content", .str "Test transcription")]]
                 max_tokens := 500
                 temperature := 7 / 10 },
             .synthesize (.str "Test AI response"),
             .unlink sampleUpload,
             .respond ⟨200, .obj [("transcription", .str "Test transcription"),
               ("response", .str "Test AI response"),
               ("audioResponse",
                 if (JVal.str "mock audio buffer").truthy then
                   .str "Audio generated successfully" else .null)]⟩]
      ∧ (processRoute testEnv ⟨some sampleUpload, none⟩ worldWithUpload).2.log
        = worldWithUpload.log ++
            [.transcribe sampleUpload,
             .complete
               { model := "gpt-4"
                 messages := systemTurn :: []
                   ++ [JVal.obj [("role", .str "user"), ("content", .str "Test transcription")]]
                 max_tokens := 500
                 temperature := 7 / 10 },
             .synthesize (.str "Test AI response"),
             .unlink sampleUpload,
             .respond ⟨200, .obj [("transcription", .str "Test transcription"),
               ("response", .str "Test AI response"),
               ("audioResponse",
                 if (JVal.str "mock audio buffer").truthy then
                   .str "Audio generated successfully" else .null)]⟩] :=
  ⟨(processRoute_stages_in_order historyEnv sampleUpload (some sampleHistoryJson)
      sampleHistory "Test transcription" (.str "Test AI response") (.str "mock audio buffer")
      [] worldWithUpload (by decide) rfl (fun h => absurd h (by decide))
      (fun s hs _ => by cases hs; rfl) rfl rfl rfl).2.1,
   (processRoute_stages_in_order testEnv sampleUpload none [] "Test transcription"
      (.str "Test AI response") (.str "mock audio buffer") [] worldWithUpload
      (by decide) rfl (fun _ => rfl) (fun s hs _ => by cases hs) rfl rfl rfl).2.1⟩

/-! ### The task list and the dispatch table -/

/-- C17: the ids advertised by `GET /list` are exactly the keys of the dispatch table, in
the same order; every listed id is dispatched by `executeTask` to the handler bound under
it (it is not reported as an unknown task type), and every key of the table is listed. -/
theorem list_ids_are_dispatch_keys (env : Env) (parameters : JVal) (w : World)
    (hw : w.tasks = initialTasks) :
    availableTasks.map descriptorId = registeredIds.map some
      ∧ (∀ id, some id ∈ availableTasks.map descriptorId ↔ id ∈ initialTasks.map Prod.fst)
      ∧ (∀ id, some id ∈ availableTasks.map descriptorId →
          ∃ h, (id, h) ∈ initialTasks
            ∧ executeTask env id parameters w
                = (runHandler env h parameters, w.record (.handler h parameters))) := by
  have hmap : availableTasks.map descriptorId = registeredIds.map some := rfl
  refine ⟨hmap, ?_, ?_⟩
  · intro id
    rw [hmap]
    simp [registeredIds]
  · intro id hid
    rw [hmap] at hid
    simp only [registeredIds, initialTasks, List.map_cons, List.map_nil, List.mem_cons,
      List.mem_singleton, Option.some.injEq, List.not_mem_nil, or_false] at hid
    rcases hid with rfl | rfl | rfl | rfl | rfl | rfl
    · exact ⟨.getAccountInfo, by decide,
        by simp [executeTask, tasksGet, hw, initialTasks, ownTask]⟩
    · exact ⟨.scheduleAppointment, by decide,
        by simp [executeTask, tasksGet, hw, initialTasks, ownTask]⟩
    · exact ⟨.trackOrder, by decide,
        by simp [executeTask, tasksGet, hw, initialTasks, ownTask]⟩
    · exact ⟨.processBillPayment, by decide,
        by simp [executeTask, tasksGet, hw, initialTasks, ownTask]⟩
    · exact ⟨.createSupportTicket, by decide,
        by simp [executeTask, tasksGet, hw, initialTasks, ownTask]⟩
    · exact ⟨.getProductInfo, by decide,
        by simp [executeTask, tasksGet, hw, initialTasks, ownTask]⟩

/-- Witness for C17: the listed id `order_tracking` in a fresh process. -/
theorem list_ids_are_dispatch_keys_witness :
    ∃ h, ("order_tracking", h) ∈ initialTasks
      ∧ executeTask testEnv "order_tracking" (.obj []) initialWorld
          = (runHandler testEnv h (.obj []), initialWorld.record (.handler h (.obj []))) :=
  (list_ids_are_dispatch_keys testEnv (.obj []) initialWorld rfl).2.2 "order_tracking"
    (by decide)

/-! ### Echoed and defaulted fields -/

theorem fieldOr_obj (kvs : List (String × JVal)) (k dflt : String) :
    fieldOr (.obj kvs) k dflt = .ok (echoOrDefault kvs k dflt) := rfl

/-- C18 (counterexample): the parameters `{amount: 0, issue: ''}` supply an amount and an
issue, and the results carry the defaults `$125.00` and `General Support Request`, not the
supplied values. -/
theorem supplied_falsy_value_not_echoed :
    JVal.lookup "amount" [("amount", .num 0), ("issue", .str "")] = some (.num 0)
      ∧ (executeTask testEnv "bill_payment" (.obj [("amount", .num 0), ("issue", .str "")])
          initialWorld).1
        = .ok (.obj [("success", .bool true),
            ("data", .obj [("paymentId", .str "PAY-1700000000000"),
                           ("amount", .str "$125.00"),
                           ("method", .str "Credit Card ****1234"),
                           ("confirmationNumber", .str "CONF-k3j9x2m1q")])])
      ∧ JVal.str "$125.00" ≠ JVal.num 0
      ∧ JVal.lookup "issue" [("amount", .num 0), ("issue", .str "")] = some (.str "")
      ∧ (executeTask testEnv "technical_support"
          (.obj [("amount", .num 0), ("issue", .str "")]) initialWorld).1
        = .ok (.obj [("success", .bool true),
            ("data", .obj [("ticketId", .str "TKT-1700000000000"),
                           ("issue", .str "General Support Request"),
                           ("priority", .str "Medium"),
                           ("estimatedResolution", .str "24-48 hours")])])
      ∧ JVal.str "General Support Request" ≠ JVal.str "" := by
  refine ⟨rfl, ?_, ?_, rfl, ?_, ?_⟩
  · simp [executeTask, tasksGet, initialWorld, initialTasks, ownTask, runHandler,
      processBillPayment, fieldOr, JVal.getField, JVal.lookup, JVal.orElse, JVal.truthy,
      testEnv, stubEnv]
    decide
  · intro h
    cases h
  · simp [executeTask, tasksGet, initialWorld, initialTasks, ownTask, runHandler,
      createSupportTicket, fieldOr, JVal.getField, JVal.lookup, JVal.orElse, JVal.truthy,
      testEnv, stubEnv]
    decide
  · intro h
    injection h with h
    exact absurd h (by decide)

/-- C18 (amended): for each of the six registered task ids and every parameters mapping,
`executeTask` returns a result with `success === true`, and each caller-controlled field
is the value of `params.k || default`: the supplied value when it is truthy, the default
when the key is absent or its value is falsy (`''`, `0`, `null`, `false`).  The fields and
defaults are `date`, `time`, `type` with `2024-02-20`, `10:00 AM`,
`General Consultation`; `orderNumber` with `ORD-12345`; `amount` with `$125.00`; `issue`
with `General Support Request`; `product` with `Premium Service Plan`. -/
theorem handlers_echo_or_default (env : Env) (kvs : List (String × JVal)) (w : World)
    (hw : w.tasks = initialTasks) :
    (executeTask env "account_info" (.obj kvs) w).1
        = .ok (.obj [("success", .bool true),
            ("data", .obj [("accountNumber", .str "****1234"),
                           ("balance", .str "$1,250.00"),
                           ("lastPayment", .str "2024-01-15"),
                           ("nextDueDate", .str "2024-02-15")])])
      ∧ (executeTask env "schedule_appointment" (.obj kvs) w).1
        = .ok (.obj [("success", .bool true),
            ("data", .obj [("appointmentId", .str ("APT-" ++ toString env.dateNow)),
                           ("date", echoOrDefault kvs "date" "2024-02-20"),
                           ("time", echoOrDefault kvs "time" "10:00 AM"),
                           ("type", echoOrDefault kvs "type" "General Consultation")])])
      ∧ (executeTask env "order_tracking" (.obj kvs) w).1
        = .ok (.obj [("success", .bool true),
            ("data", .obj [("orderNumber", echoOrDefault kvs "orderNumber" "ORD-12345"),
                           ("status", .str "In Transit"),
                           ("estimatedDelivery", .str "2024-01-25"),
                           ("trackingNumber", .str "TRK789456123")])])
      ∧ (executeTask env "bill_payment" (.obj kvs) w).1
        = .ok (.obj [("success", .bool true),
            ("data", .obj [("paymentId", .str ("PAY-" ++ toString env.dateNow)),
                           ("amount", echoOrDefault kvs "amount" "$125.00"),
                           ("method", .str "Credit Card ****1234"),
                           ("confirmationNumber", .str ("CONF-" ++ env.randomSuffix))])])
      ∧ (executeTask env "technical_support" (.obj kvs) w).1
        = .ok (.obj [("success", .bool true),
            ("data", .obj [("ticketId", .str ("TKT-" ++ toString env.dateNow)),
                           ("issue", echoOrDefault kvs "issue" "General Support Request"),
                           ("priority", .str "Medium"),
                           ("estimatedResolution", .str "24-48 hours")])])
      ∧ (executeTask env "product_info" (.obj kvs) w).1
        = .ok (.obj [("success", .bool true),
            ("data", .obj [("productName", echoOrDefault kvs "product" "Premium Service Plan"),
                           ("price", .str "$29.99/month"),
                           ("features", .arr [.str "24/7 Support", .str "Priority Service",
                                              .str "Advanced Features"]),
                           ("availability", .str "Available")])])
      ∧ (∀ k dflt v, JVal.lookup k kvs = some v → v.truthy = true →
          echoOrDefault kvs k dflt = v)
      ∧ (∀ k dflt v, JVal.lookup k kvs = some v → v.truthy = false →
          echoOrDefault kvs k dflt = .str dflt)
      ∧ (∀ k dflt, JVal.lookup k kvs = none → echoOrDefault kvs k dflt = .str dflt) := by
  refine ⟨?_, ?_, ?_, ?_, ?_, ?_, ?_, ?_, ?_⟩
  · simp [executeTask, tasksGet, hw, initialTasks, ownTask, runHandler, getAccountInfo]
  · simp [executeTask, tasksGet, hw, initialTasks, ownTask, runHandler, scheduleAppointment,
      fieldOr_obj]
  · simp [executeTask, tasksGet, hw, initialTasks, ownTask, runHandler, trackOrder,
      fieldOr_obj]
  · simp [executeTask, tasksGet, hw, initialTasks, ownTask, runHandler, processBillPayment,
      fieldOr_obj]
  · simp [executeTask, tasksGet, hw, initialTasks, ownTask, runHandler, createSupportTicket,
      fieldOr_obj]
  · simp [executeTask, tasksGet, hw, initialTasks, ownTask, runHandler, getProductInfo,
      fieldOr_obj]
  · intro k dflt v hl ht
    simp [echoOrDefault, hl, JVal.orElse, ht]
  · intro k dflt v hl ht
    simp [echoOrDefault, hl, JVal.orElse, ht]
  · intro k dflt hl
    simp [echoOrDefault, hl, JVal.orElse, JVal.truthy]

/-- Witness for C18 (amended): an appointment request that supplies only the date. -/
theorem handlers_echo_or_default_witness :
    (executeTask testEnv "schedule_appointment" (.obj [("date", .str "2024-03-01")])
        initialWorld).1
      = .ok (.obj [("success", .bool true),
          ("data", .obj [("appointmentId", .str ("APT-" ++ toString testEnv.dateNow)),
            ("date", echoOrDefault [("date", .str "2024-03-01")] "date" "2024-02-20"),
            ("time", echoOrDefault [("date", .str "2024-03-01")] "time" "10:00 AM"),
            ("type", echoOrDefault [("date", .str "2024-03-01")] "type"
                       "General Consultation")])])
      ∧ echoOrDefault [("date", .str "2024-03-01")] "date" "2024-02-20" = .str "2024-03-01"
      ∧ echoOrDefault [("date", .str "2024-03-01")] "time" "10:00 AM" = .str "10:00 AM" :=
  ⟨(handlers_echo_or_default testEnv [("date", .str "2024-03-01")] initialWorld rfl).2.1,
   (handlers_echo_or_default testEnv [("date", .str "2024-03-01")] initialWorld
      rfl).2.2.2.2.2.2.1 "date" "2024-02-20" (.str "2024-03-01") rfl (by decide),
   (handlers_echo_or_default testEnv [("date", .str "2024-03-01")] initialWorld
      rfl).2.2.2.2.2.2.2.2 "time" "10:00 AM" rfl⟩

end GetHelp
